import Mathlib

/-!
# ESP32 sensor node firmware (`esp32-sensors/src/main.cpp`)

A shallow embedding of the firmware's cooperative loop.

* Global variables of the sketch are the record `Globals`.
* The external collaborators (clock, radio, MQTT client, DHT driver) are a
  replay oracle: the k-th call of an API returns the k-th value of the
  matching stream of `Oracle`.  Every real execution corresponds to one oracle,
  so a theorem quantified over all oracles covers every behaviour of the
  collaborators.  `World` holds one cursor per API and the chronological
  list of the effectful calls that were made.
* `unsigned long` is 32 bits wide on the ESP32: clock readings are reduced
  modulo `2^32` and differences of clock readings wrap.
* `float` values are `Flt`: NaN, the two infinities, or an exact rational.
  Only comparisons against constants are used by the control flow, and those
  are exact.
* `config.h` is not part of the sources; its constants are the fields of
  `Config`, its two record types are modelled from the specification.
* Serial debug output (`CLUSTER_DEBUG_*`) has no effect on the state and is
  left out; a JSON document is the list of its members, its byte capacity is
  not represented.
* Loops whose exit depends on the outside world take a fuel argument and
  return `none` when it runs out; `connectWiFi_returns` and `loop_returns`
  give the fuel that suffices.
-/

namespace ClusterSensor

/-! ## Floating point values -/

/-- A `float`: not-a-number, an infinity, or a finite value. -/
inductive Flt where
  | nan
  | negInf
  | posInf
  | fin (q : ℚ)
  deriving DecidableEq

/-- C `isnan`. -/
def Flt.isnan : Flt → Bool
  | .nan => true
  | _ => false

/-- C `a < b` on floats: false as soon as one side is NaN. -/
def Flt.lt : Flt → Flt → Bool
  | .fin a, .fin b => decide (a < b)
  | .negInf, .fin _ => true
  | .negInf, .posInf => true
  | .fin _, .posInf => true
  | _, _ => false

/-- C `a > b` on floats. -/
def Flt.gt (a b : Flt) : Bool := Flt.lt b a

/-- Round half away from zero, the C `round`. -/
def roundHalfAway (q : ℚ) : ℤ :=
  if 0 ≤ q then ⌊q + 1 / 2⌋ else ⌈q - 1 / 2⌉

/-- The expression `round(x * 100) / 100.0` of `publishSensorData`
(binary rounding error of the product is not represented). -/
def Flt.round2 : Flt → Flt
  | .fin q => .fin ((roundHalfAway (q * 100) : ℚ) / 100)
  | x => x

/-! ## Machine integers -/

/-- Number of values of an `unsigned long` on the ESP32 (32 bits). -/
def ULONG_MOD : Nat := 2 ^ 32

/-- Subtraction of two `unsigned long` values, wrapping modulo `2^32`. -/
def usub (a b : Nat) : Nat := (a + ULONG_MOD - b % ULONG_MOD) % ULONG_MOD

/-- Number of values of the 32-bit unsigned counter `reconnect_attempts`. -/
def U32_MOD : Nat := 2 ^ 32

/-! ## Data model -/

/-- Modelled from the spec: `SensorData` is declared in `config.h`, which is
missing; fields in the order of the initialiser `{0, 0, 0, false}` with the
names used in `main.cpp`. -/
structure SensorData where
  temperature : Flt
  humidity : Flt
  timestamp : Nat
  is_valid : Bool
  deriving DecidableEq

/-- Modelled from the spec: `SystemStatus` is declared in `config.h`, which is
missing; fields in the order of the initialiser `{false, false, 0, 0, 0}` with
the names used in `main.cpp`; `reconnect_attempts` is the spec's `u32`. -/
structure SystemStatus where
  wifi_connected : Bool
  mqtt_connected : Bool
  uptime : Nat
  last_sensor_read : Nat
  reconnect_attempts : Nat
  deriving DecidableEq

/-- Build-time constants of `config.h` (absent from the sources), already
converted to the type they are compared at. -/
structure Config where
  SENSOR_RETRY_COUNT : Nat
  WIFI_TIMEOUT : Nat
  SENSOR_READ_INTERVAL : Nat
  TEMP_ALERT_THRESHOLD : Flt
  HUMIDITY_MIN_THRESHOLD : Flt
  HUMIDITY_MAX_THRESHOLD : Flt

/-- The two topic constants used at the publish call sites. -/
inductive Topic where
  | PUB_TOPIC
  | STATUS_TOPIC
  deriving DecidableEq

/-- Default value of `ESP_ID`. -/
def ESP_ID : String := "esp32_unknown"

/-- Default topic strings of `main.cpp` (lines 33-39). -/
def Topic.name : Topic → String
  | .PUB_TOPIC => "legion32/unknown"
  | .STATUS_TOPIC => "legion32/status"

/-- A value stored in a JSON document. -/
inductive JVal where
  | str (s : String)
  | num (x : Flt)
  | uint (n : Nat)
  | int (i : Int)
  deriving DecidableEq

/-- An ArduinoJson document: keys in insertion order, each key once. -/
abbrev JsonDoc := List (String × JVal)

/-- The assignment `doc[k] = v`: overwrite the member `k`, or append it. -/
def JsonDoc.set : JsonDoc → String → JVal → JsonDoc
  | [], k, v => [(k, v)]
  | (k0, v0) :: rest, k, v =>
    if k0 = k then (k, v) :: rest else (k0, v0) :: JsonDoc.set rest k v

/-- Member lookup `doc[k]`. -/
def JsonDoc.get : JsonDoc → String → Option JVal
  | [], _ => none
  | (k0, v0) :: rest, k => if k0 = k then some v0 else JsonDoc.get rest k

/-- Number of members of the document named `k`. -/
def JsonDoc.countKey (d : JsonDoc) (k : String) : Nat :=
  (d.filter (fun kv => kv.1 = k)).length

/-- Effectful calls on the external collaborators, and the entries into
`connectWiFi` and `connectMQTT` (recorded so that an invocation that returns
early is still visible). -/
inductive Event where
  | serialBegin
  | dhtBegin
  | mqttSetServer
  | mqttSetCallback
  | mqttSetKeepAlive
  | enterConnectWiFi
  | enterConnectMQTT
  | wifiBegin
  | delay (ms : Nat)
  | mqttConnect
  | mqttLoop
  | publish (topic : Topic) (payload : JsonDoc)
  | readHumidity
  | readTemperature
  deriving DecidableEq

/-- Replay oracle: the value returned by the k-th call of each API. -/
structure Oracle where
  millis : Nat → Nat
  wifiStatus : Nat → Bool
  mqttConnected : Nat → Bool
  mqttConnect : Nat → Bool
  mqttPublish : Nat → Bool
  readHumidity : Nat → Flt
  readTemperature : Nat → Flt
  rssi : Nat → Int
  freeHeap : Nat → Nat

/-- Cursors into the oracle streams and the calls made so far, oldest first. -/
structure World where
  nMillis : Nat
  nWifiStatus : Nat
  nMqttConnected : Nat
  nMqttConnect : Nat
  nPublish : Nat
  nHumidity : Nat
  nTemperature : Nat
  nRssi : Nat
  nFreeHeap : Nat
  trace : List Event
  deriving DecidableEq

/-- The global variables of the sketch (lines 20-24). -/
structure Globals where
  systemStatus : SystemStatus
  lastSensorData : SensorData
  lastPublishTime : Nat
  lastWifiCheck : Nat
  lastMqttCheck : Nat
  deriving DecidableEq

/-- Whole machine state: the globals and the outside world. -/
structure St where
  prog : Globals
  world : World
  deriving DecidableEq

/-- The initial reading `{0, 0, 0, false}`. -/
def SensorData.zero : SensorData :=
  { temperature := .fin 0, humidity := .fin 0, timestamp := 0, is_valid := false }

/-- Globals as initialised at lines 20-24. -/
def Globals.init : Globals :=
  { systemStatus :=
      { wifi_connected := false, mqtt_connected := false, uptime := 0,
        last_sensor_read := 0, reconnect_attempts := 0 }
    lastSensorData := SensorData.zero
    lastPublishTime := 0
    lastWifiCheck := 0
    lastMqttCheck := 0 }

/-- The world at power-on: nothing called yet. -/
def World.init : World :=
  { nMillis := 0, nWifiStatus := 0, nMqttConnected := 0, nMqttConnect := 0,
    nPublish := 0, nHumidity := 0, nTemperature := 0, nRssi := 0,
    nFreeHeap := 0, trace := [] }

/-- Machine state at power-on. -/
def St.init : St := { prog := Globals.init, world := World.init }

/-! ## External calls -/

/-- Record an effectful call. -/
def emit (e : Event) (s : St) : St :=
  { s with world := { s.world with trace := s.world.trace ++ [e] } }

/-- The call `millis()`: next clock reading, as an `unsigned long`. -/
def millis (o : Oracle) (s : St) : Nat × St :=
  (o.millis s.world.nMillis % ULONG_MOD,
   { s with world := { s.world with nMillis := s.world.nMillis + 1 } })

/-- The test `WiFi.status() == WL_CONNECTED`. -/
def wifiConnected (o : Oracle) (s : St) : Bool × St :=
  (o.wifiStatus s.world.nWifiStatus,
   { s with world := { s.world with nWifiStatus := s.world.nWifiStatus + 1 } })

/-- The call `mqttClient.connected()`. -/
def mqttConnected (o : Oracle) (s : St) : Bool × St :=
  (o.mqttConnected s.world.nMqttConnected,
   { s with world := { s.world with nMqttConnected := s.world.nMqttConnected + 1 } })

/-- The call `mqttClient.connect(ESP_ID)`. -/
def mqttConnect (o : Oracle) (s : St) : Bool × St :=
  (o.mqttConnect s.world.nMqttConnect,
   emit .mqttConnect
     { s with world := { s.world with nMqttConnect := s.world.nMqttConnect + 1 } })

/-- The call `mqttClient.publish(topic, payload)`. -/
def mqttPublish (o : Oracle) (topic : Topic) (payload : JsonDoc) (s : St) : Bool × St :=
  (o.mqttPublish s.world.nPublish,
   emit (.publish topic payload)
     { s with world := { s.world with nPublish := s.world.nPublish + 1 } })

/-- The call `dht.readHumidity()`. -/
def readHumidity (o : Oracle) (s : St) : Flt × St :=
  (o.readHumidity s.world.nHumidity,
   emit .readHumidity
     { s with world := { s.world with nHumidity := s.world.nHumidity + 1 } })

/-- The call `dht.readTemperature()`. -/
def readTemperature (o : Oracle) (s : St) : Flt × St :=
  (o.readTemperature s.world.nTemperature,
   emit .readTemperature
     { s with world := { s.world with nTemperature := s.world.nTemperature + 1 } })

/-- The call `WiFi.RSSI()`. -/
def wifiRSSI (o : Oracle) (s : St) : Int × St :=
  (o.rssi s.world.nRssi,
   { s with world := { s.world with nRssi := s.world.nRssi + 1 } })

/-- The call `ESP.getFreeHeap()`. -/
def getFreeHeap (o : Oracle) (s : St) : Nat × St :=
  (o.freeHeap s.world.nFreeHeap,
   { s with world := { s.world with nFreeHeap := s.world.nFreeHeap + 1 } })

/-- The call `delay(ms)`. -/
def delay (ms : Nat) (s : St) : St := emit (.delay ms) s

/-! ## Utility functions (lines 48-66) -/

/-- The conversion `%lu`: decimal digits, no padding. -/
def fmtLu (n : Nat) : List Char := Nat.toDigits 10 n

/-- The conversion `%02lu`: decimal digits, zero-padded on the left to width 2. -/
def fmt02Lu (n : Nat) : List Char :=
  List.replicate (2 - (fmtLu n).length) '0' ++ fmtLu n

/-- The call `snprintf(buf, size, ...)`: at most `size - 1` characters are kept. -/
def snprintf (size : Nat) (full : List Char) : List Char := full.take (size - 1)

/-- Body of `getISOTimestamp` after the clock was read. -/
def isoTimestampOf (now : Nat) : String :=
  let seconds := now / 1000
  let minutes := seconds / 60
  let hours := minutes / 60
  let days := hours / 24
  String.mk (snprintf 25
    (fmtLu days ++ 'T' :: fmt02Lu (hours % 24) ++ ':' :: fmt02Lu (minutes % 60)
      ++ ':' :: fmt02Lu (seconds % 60) ++ ['Z']))

/-- The function `getISOTimestamp` (lines 48-59). -/
def getISOTimestamp (o : Oracle) (s : St) : String × St :=
  let (now, s1) := millis o s
  (isoTimestampOf now, s1)

/-- The function `isValidValue` (lines 64-66). -/
def isValidValue (value : Flt) : Bool :=
  !value.isnan && value.gt (.fin (-100)) && value.lt (.fin 200)

/-! ## Connectivity (lines 85-166) -/

/-- Store into `systemStatus`. -/
def setStatus (f : SystemStatus → SystemStatus) (s : St) : St :=
  { s with prog := { s.prog with systemStatus := f s.prog.systemStatus } }

/-- The polling loop of `connectWiFi` (lines 94-97); `none` when the fuel
runs out before the loop condition turns false.  The clock is read only
when the link is still down (short-circuit `&&`). -/
def pollLoop (o : Oracle) (cfg : Config) (startTime : Nat) : Nat → St → Option St
  | 0, _ => none
  | fuel + 1, s =>
    let (up, s1) := wifiConnected o s
    if up then some s1
    else
      let (t, s2) := millis o s1
      if usub t startTime < cfg.WIFI_TIMEOUT then
        pollLoop o cfg startTime fuel (delay 500 s2)
      else some s2

/-- The function `connectWiFi` (lines 85-111). -/
def connectWiFi (o : Oracle) (cfg : Config) (fuel : Nat) (s : St) : Option (Bool × St) :=
  let (up, s1) := wifiConnected o (emit .enterConnectWiFi s)
  if up then some (true, s1)
  else
    let s2 := emit .wifiBegin s1
    let (startTime, s3) := millis o s2
    match pollLoop o cfg startTime fuel s3 with
    | none => none
    | some s4 =>
      let (up2, s5) := wifiConnected o s4
      if up2 then
        some (true, setStatus
          (fun st => { st with wifi_connected := true, reconnect_attempts := 0 }) s5)
      else
        some (false, setStatus
          (fun st => { st with wifi_connected := false,
                               reconnect_attempts := (st.reconnect_attempts + 1) % U32_MOD }) s5)

/-- The function `publishStatus` (lines 128-141). -/
def publishStatus (o : Oracle) (status : String) (s : St) : Bool × St :=
  let doc : JsonDoc := []
  let doc := doc.set "esp_id" (.str ESP_ID)
  let doc := doc.set "status" (.str status)
  let (ts, s1) := getISOTimestamp o s
  let doc := doc.set "timestamp" (.str ts)
  let (up, s2) := millis o s1
  let doc := doc.set "uptime" (.uint up)
  let (rssi, s3) := wifiRSSI o s2
  let doc := doc.set "wifi_rssi" (.int rssi)
  let (heap, s4) := getFreeHeap o s3
  let doc := doc.set "free_heap" (.uint heap)
  mqttPublish o .STATUS_TOPIC doc s4

/-- The function `connectMQTT` (lines 146-166). -/
def connectMQTT (o : Oracle) (s : St) : Bool × St :=
  let (c, s1) := mqttConnected o (emit .enterConnectMQTT s)
  if c then (true, s1)
  else
    let (ok, s2) := mqttConnect o s1
    if ok then
      let s3 := setStatus
        (fun st => { st with mqtt_connected := true, reconnect_attempts := 0 }) s2
      let (_, s4) := publishStatus o "online" s3
      (true, s4)
    else
      (false, setStatus (fun st => { st with mqtt_connected := false }) s2)

/-! ## Sensor (lines 175-201) -/

/-- The retry loop of `readSensor` with `n` attempts left. -/
def readSensorLoop (o : Oracle) : Nat → SensorData → St → SensorData × St
  | 0, data, s => (data, s)
  | n + 1, data, s =>
    let (humidity, s1) := readHumidity o s
    let (temperature, s2) := readTemperature o s1
    if isValidValue humidity && isValidValue temperature then
      let (t, s3) := millis o s2
      ({ data with temperature := temperature, humidity := humidity,
                   timestamp := t, is_valid := true }, s3)
    else
      readSensorLoop o n data (delay 1000 s2)

/-- The function `readSensor` (lines 175-201). -/
def readSensor (o : Oracle) (cfg : Config) (s : St) : SensorData × St :=
  readSensorLoop o cfg.SENSOR_RETRY_COUNT SensorData.zero s

/-! ## Publication (lines 210-242) -/

/-- The alert selection of `publishSensorData` (lines 223-228). -/
def setAlert (cfg : Config) (data : SensorData) (doc : JsonDoc) : JsonDoc :=
  if data.temperature.gt cfg.TEMP_ALERT_THRESHOLD then
    doc.set "alert" (.str "high_temperature")
  else if data.humidity.lt cfg.HUMIDITY_MIN_THRESHOLD ||
          data.humidity.gt cfg.HUMIDITY_MAX_THRESHOLD then
    doc.set "alert" (.str "humidity_out_of_range")
  else doc

/-- The document built by `publishSensorData` (lines 215-228) from the
reading, the timestamp string and the uptime. -/
def dataDoc (cfg : Config) (data : SensorData) (ts : String) (up : Nat) : JsonDoc :=
  let doc : JsonDoc := []
  let doc := doc.set "esp_id" (.str ESP_ID)
  let doc := doc.set "temperature" (.num data.temperature.round2)
  let doc := doc.set "humidity" (.num data.humidity.round2)
  let doc := doc.set "timestamp" (.str ts)
  let doc := doc.set "uptime" (.uint up)
  setAlert cfg data doc

/-- The function `publishSensorData` (lines 210-242). -/
def publishSensorData (o : Oracle) (cfg : Config) (data : SensorData) (s : St) : Bool × St :=
  if !data.is_valid then (false, s)
  else
    let (ts, s1) := getISOTimestamp o s
    let (up, s2) := millis o s1
    let doc := dataDoc cfg data ts up
    let (ok, s3) := mqttPublish o .PUB_TOPIC doc s2
    if ok then
      let (t, s4) := millis o s3
      (true, { s4 with prog := { s4.prog with lastPublishTime := t } })
    else (false, s3)

/-! ## Monitoring (lines 251-282) -/

/-- Wireless half of `maintainConnectivity` (lines 255-262). -/
def maintainWiFi (o : Oracle) (cfg : Config) (fuel : Nat) (now : Nat) (s : St) : Option St :=
  if usub now s.prog.lastWifiCheck > 30000 then
    let (up, s1) := wifiConnected o s
    if !up then
      let s2 := setStatus (fun st => { st with wifi_connected := false }) s1
      match connectWiFi o cfg fuel s2 with
      | none => none
      | some (_, s3) => some { s3 with prog := { s3.prog with lastWifiCheck := now } }
    else some { s1 with prog := { s1.prog with lastWifiCheck := now } }
  else some s

/-- Messaging half of `maintainConnectivity` (lines 265-272). -/
def maintainMQTT (o : Oracle) (now : Nat) (s : St) : St :=
  if usub now s.prog.lastMqttCheck > 10000 then
    let (c, s1) := mqttConnected o s
    if !c then
      let s2 := setStatus (fun st => { st with mqtt_connected := false }) s1
      let (_, s3) := connectMQTT o s2
      { s3 with prog := { s3.prog with lastMqttCheck := now } }
    else { s1 with prog := { s1.prog with lastMqttCheck := now } }
  else s

/-- The function `maintainConnectivity` (lines 251-273). -/
def maintainConnectivity (o : Oracle) (cfg : Config) (fuel : Nat) (s : St) : Option St :=
  let (now, s1) := millis o s
  match maintainWiFi o cfg fuel now s1 with
  | none => none
  | some s2 => some (maintainMQTT o now s2)

/-- The function `updateSystemStatus` (lines 278-282). -/
def updateSystemStatus (o : Oracle) (s : St) : St :=
  let (up, s1) := millis o s
  let s2 := setStatus (fun st => { st with uptime := up }) s1
  let (w, s3) := wifiConnected o s2
  let s4 := setStatus (fun st => { st with wifi_connected := w }) s3
  let (m, s5) := mqttConnected o s4
  setStatus (fun st => { st with mqtt_connected := m }) s5

/-! ## Setup and loop (lines 288-349) -/

/-- The function `setup` (lines 288-314). -/
def setup (o : Oracle) (cfg : Config) (fuel : Nat) (s : St) : Option St :=
  let s1 := emit .serialBegin s
  let s2 := delay 1000 s1
  let s3 := emit .dhtBegin s2
  let s4 := emit .mqttSetServer s3
  let s5 := emit .mqttSetCallback s4
  let s6 := emit .mqttSetKeepAlive s5
  match connectWiFi o cfg fuel s6 with
  | none => none
  | some (ok, s7) => if ok then some (connectMQTT o s7).2 else some s7

/-- The sampling step of `loop` (lines 327-345). -/
def samplingStep (o : Oracle) (cfg : Config) (s : St) : St :=
  let (now, s1) := millis o s
  if usub now s1.prog.lastPublishTime ≥ cfg.SENSOR_READ_INTERVAL then
    let (currentData, s2) := readSensor o cfg s1
    let s5 :=
      if currentData.is_valid then
        let (ok, s3) := publishSensorData o cfg currentData s2
        if ok then
          setStatus (fun st => { st with last_sensor_read := now })
            { s3 with prog := { s3.prog with lastSensorData := currentData } }
        else s3
      else (publishStatus o "sensor_error" s2).2
    { s5 with prog := { s5.prog with lastPublishTime := now } }
  else s1

/-- The part of `loop` after `maintainConnectivity` (lines 321-348). -/
def loopRest (o : Oracle) (cfg : Config) (s : St) : St :=
  let s1 := updateSystemStatus o s
  let s2 := emit .mqttLoop s1
  let s3 := samplingStep o cfg s2
  delay 100 s3

/-- The function `loop` (lines 316-349): one iteration. -/
def loop (o : Oracle) (cfg : Config) (fuel : Nat) (s : St) : Option St :=
  match maintainConnectivity o cfg fuel s with
  | none => none
  | some s1 => some (loopRest o cfg s1)

/-! ## Specification-side definitions -/

/-- Two decimal digits of a number below 100, tens first. -/
def twoDigits (n : Nat) : List Char := [Nat.digitChar (n / 10), Nat.digitChar (n % 10)]

/-- The timestamp as the specification words it:
`"{days}T{hours:02}:{minutes:02}:{seconds:02}Z"`. -/
def specTimestamp (ms : Nat) : String :=
  let s := ms / 1000
  let m := s / 60
  let h := m / 60
  let d := h / 24
  String.mk ((Nat.repr d).data ++ ['T'] ++ twoDigits (h % 24) ++ [':'] ++
    twoDigits (m % 60) ++ [':'] ++ twoDigits (s % 60) ++ ['Z'])

/-- Whether attempt `i` (counted from 0) of a `readSensor` call started in
state `s` passes the validity filter on both values. -/
def attemptOk (o : Oracle) (s : St) (i : Nat) : Bool :=
  isValidValue (o.readHumidity (s.world.nHumidity + i)) &&
  isValidValue (o.readTemperature (s.world.nTemperature + i))

/-- The calls made by one failed attempt of `readSensor`. -/
def failedAttempt : List Event := [.readHumidity, .readTemperature, .delay 1000]

/-- The state after `k` failed attempts of `readSensor`. -/
def failedState (k : Nat) (s : St) : St :=
  { s with world := { s.world with
      nHumidity := s.world.nHumidity + k
      nTemperature := s.world.nTemperature + k
      trace := s.world.trace ++ (List.replicate k failedAttempt).flatten } }

/-- Whether the loop condition of `connectWiFi` is false at poll `j` of a
polling loop entered in state `s` with start time `st`. -/
def pollExit (o : Oracle) (cfg : Config) (st : Nat) (s : St) (j : Nat) : Bool :=
  o.wifiStatus (s.world.nWifiStatus + j) ||
  !decide (usub (o.millis (s.world.nMillis + j) % ULONG_MOD) st < cfg.WIFI_TIMEOUT)

/-- The values of the last-good-reading cache and of the sampling gate:
`lastSensorData`, `lastPublishTime` and `systemStatus.last_sensor_read`. -/
def St.cache (s : St) : SensorData × Nat × Nat :=
  (s.prog.lastSensorData, s.prog.lastPublishTime, s.prog.systemStatus.last_sensor_read)

/-- Number of times the call `e` was made so far. -/
def St.calls (s : St) (e : Event) : Nat := s.world.trace.count e

/-- The document built by `publishStatus`. -/
def statusDoc (status ts : String) (up : Nat) (rssi : Int) (heap : Nat) : JsonDoc :=
  [("esp_id", .str ESP_ID), ("status", .str status), ("timestamp", .str ts),
   ("uptime", .uint up), ("wifi_rssi", .int rssi), ("free_heap", .uint heap)]

/-- The condition under which `maintainConnectivity`, entered in state `s`,
calls `connectWiFi`: the 30 000 gate has elapsed and the link is down. -/
def wifiGateOpen (o : Oracle) (s : St) : Bool :=
  decide (usub (o.millis s.world.nMillis % ULONG_MOD) s.prog.lastWifiCheck > 30000) &&
  !o.wifiStatus s.world.nWifiStatus

/-- The condition under which `maintainConnectivity`, entered in state `s`,
calls `connectMQTT`: the 10 000 gate has elapsed and the session is down. -/
def mqttGateOpen (o : Oracle) (s : St) : Bool :=
  decide (usub (o.millis s.world.nMillis % ULONG_MOD) s.prog.lastMqttCheck > 10000) &&
  !o.mqttConnected s.world.nMqttConnected

/-- The accepted-reading invariant: a reading flagged valid has both values
inside the validity filter. -/
def SensorData.Good (d : SensorData) : Prop :=
  d.is_valid = true ∧ isValidValue d.temperature = true ∧ isValidValue d.humidity = true

/-- The clock value read by the sampling step entered in state `pre`. -/
def sampleNow (o : Oracle) (pre : St) : Nat := o.millis pre.world.nMillis % ULONG_MOD

/-- Whether the sampling gate has elapsed for the step entered in `pre`. -/
def sampleGate (o : Oracle) (cfg : Config) (pre : St) : Bool :=
  decide (usub (sampleNow o pre) pre.prog.lastPublishTime ≥ cfg.SENSOR_READ_INTERVAL)

/-- The reading `readSensor` returns in the sampling step entered in `pre`. -/
def sampleReading (o : Oracle) (cfg : Config) (pre : St) : SensorData :=
  (readSensor o cfg (millis o pre).2).1

/-- Whether the data publish of the sampling step entered in `pre` succeeds. -/
def samplePublishOk (o : Oracle) (pre : St) : Bool := o.mqttPublish pre.world.nPublish

/-- The sampling step after the sensor was read (lines 331-344), as a
function of the reading and of the state `readSensor` left. -/
def afterRead (o : Oracle) (cfg : Config) (now : Nat) (currentData : SensorData) (s2 : St) : St :=
  let s5 :=
    if currentData.is_valid then
      let (ok, s3) := publishSensorData o cfg currentData s2
      if ok then
        setStatus (fun st => { st with last_sensor_read := now })
          { s3 with prog := { s3.prog with lastSensorData := currentData } }
      else s3
    else (publishStatus o "sensor_error" s2).2
  { s5 with prog := { s5.prog with lastPublishTime := now } }

/-- The state in which the sampling step of an iteration starts, given the
state `s1` left by `maintainConnectivity`. -/
def loopPre (o : Oracle) (s1 : St) : St := emit .mqttLoop (updateSystemStatus o s1)

/-- Successive calls of `connectWiFi`: the results in call order and the
final state. -/
def connectWiFiTimes (o : Oracle) (cfg : Config) (fuel : Nat) : Nat → St → Option (List Bool × St)
  | 0, s => some ([], s)
  | n + 1, s =>
    match connectWiFi o cfg fuel s with
    | none => none
    | some (r, s1) =>
      match connectWiFiTimes o cfg fuel n s1 with
      | none => none
      | some (rs, s2) => some (r :: rs, s2)

/-- Whether poll `j` of the `connectWiFi` call made by a
`maintainConnectivity` entered in state `s` finds the loop condition false:
the link is up, or the timeout has elapsed since the start reading. -/
def wifiPollEnds (o : Oracle) (cfg : Config) (s : St) (j : Nat) : Bool :=
  o.wifiStatus (s.world.nWifiStatus + 2 + j) ||
  !decide (usub (o.millis (s.world.nMillis + 2 + j) % ULONG_MOD)
    (o.millis (s.world.nMillis + 1) % ULONG_MOD) < cfg.WIFI_TIMEOUT)

/-- The states of the running program at the boundaries of its iterations:
after `setup` (run once from power-on) and after each completed iteration of
`loop`. -/
inductive Running (o : Oracle) (cfg : Config) : St → Prop where
  | setup (fuel : Nat) (s : St) : setup o cfg fuel St.init = some s → Running o cfg s
  | loop (fuel : Nat) (s sEnd : St) :
      Running o cfg s → loop o cfg fuel s = some sEnd → Running o cfg sEnd

/-- The reachable states: power-on, and the states of the running program. -/
def Reachable (o : Oracle) (cfg : Config) (s : St) : Prop :=
  s = St.init ∨ Running o cfg s

/-! ## Concrete scenarios -/

/-- Constants used in the scenarios: three sensor attempts, a 10 s wireless
timeout, a 5 s sampling interval, alert thresholds 35.0 and [30.0, 70.0]. -/
def demoCfg : Config :=
  { SENSOR_RETRY_COUNT := 3
    WIFI_TIMEOUT := 10000
    SENSOR_READ_INTERVAL := 5000
    TEMP_ALERT_THRESHOLD := .fin 35
    HUMIDITY_MIN_THRESHOLD := .fin 30
    HUMIDITY_MAX_THRESHOLD := .fin 70 }

/-- A healthy node: links up, publishes succeed, the first sensor attempt
returns NaN humidity and later ones 45.0 % at 36.0 degrees; successive clock
readings are 7 s apart. -/
def demoOracle : Oracle :=
  { millis := fun k => 60000 + 7000 * k
    wifiStatus := fun _ => true
    mqttConnected := fun _ => true
    mqttConnect := fun _ => true
    mqttPublish := fun _ => true
    readHumidity := fun k => if k = 0 then .nan else .fin 45
    readTemperature := fun _ => .fin 36
    rssi := fun _ => -60
    freeHeap := fun _ => 200000 }

/-- A node whose sensor returns NaN at every read. -/
def nanOracle : Oracle :=
  { demoOracle with readHumidity := fun _ => .nan, readTemperature := fun _ => .nan }

/-- A node with no wireless link and no messaging session. -/
def offlineOracle : Oracle :=
  { demoOracle with
    wifiStatus := fun _ => false
    mqttConnected := fun _ => false
    mqttConnect := fun _ => false
    mqttPublish := fun _ => false }

/-- The reading 36.0 degrees, 45.0 %. -/
def hotReading : SensorData :=
  { temperature := .fin 36, humidity := .fin 45, timestamp := 60000, is_valid := true }

/-- A node with no wireless link, no messaging session and a sensor that
only returns NaN; successive clock readings are 7 s apart. -/
def deadOracle : Oracle :=
  { offlineOracle with readHumidity := fun _ => .nan, readTemperature := fun _ => .nan }

/-- Power-on state, except that `reconnect_attempts` holds the largest
value of its 32-bit type. -/
def wrapState : St :=
  { St.init with prog := { Globals.init with systemStatus :=
      { Globals.init.systemStatus with reconnect_attempts := 4294967295 } } }

/-- The two gate conditions that make the next iteration of the dead node
enter `connectWiFi` and sample. -/
def DeadInv (s : St) : Prop :=
  usub (deadOracle.millis s.world.nMillis % ULONG_MOD) s.prog.lastWifiCheck > 30000 ∧
  usub (deadOracle.millis (s.world.nMillis + 5) % ULONG_MOD) s.prog.lastPublishTime ≥ 5000

/-! ## Lemmas -/

theorem fmt02Lu_eq_twoDigits : ∀ n, n < 60 → fmt02Lu n = twoDigits n := by
  decide

theorem fmtLu_length_le : ∀ n, n < 50 → (fmtLu n).length ≤ 2 := by
  decide

theorem twoDigits_length (n : Nat) : (twoDigits n).length = 2 := rfl

theorem isoTimestampOf_eq_spec (ms : Nat) (h : ms < ULONG_MOD) :
    isoTimestampOf ms = specTimestamp ms := by
  have hd : ms / 1000 / 60 / 60 / 24 < 50 := by
    unfold ULONG_MOD at h
    omega
  have h1 := fmt02Lu_eq_twoDigits (ms / 1000 / 60 / 60 % 24) (by omega)
  have h2 := fmt02Lu_eq_twoDigits (ms / 1000 / 60 % 60) (by omega)
  have h3 := fmt02Lu_eq_twoDigits (ms / 1000 % 60) (by omega)
  have h4 := fmtLu_length_le _ hd
  simp only [isoTimestampOf, specTimestamp, snprintf, h1, h2, h3]
  congr 1
  rw [List.take_of_length_le]
  · simp [fmtLu, Nat.repr, List.asString]
  · simp [twoDigits_length]
    omega

theorem failedState_zero (s : St) : failedState 0 s = s := by
  simp [failedState]

theorem failedState_succ (k : Nat) (s : St) :
    failedState k (failedState 1 s) = failedState (k + 1) s := by
  simp [failedState, List.replicate_succ, Nat.add_comm, Nat.add_left_comm]

theorem attemptOk_failedState (o : Oracle) (s : St) (k j : Nat) :
    attemptOk o (failedState k s) j = attemptOk o s (k + j) := by
  simp [attemptOk, failedState, Nat.add_assoc]

theorem readSensorLoop_failed_step (o : Oracle) (n : Nat) (data : SensorData) (s : St)
    (h : attemptOk o s 0 = false) :
    readSensorLoop o (n + 1) data s = readSensorLoop o n data (failedState 1 s) := by
  have h0 : (isValidValue (o.readHumidity s.world.nHumidity) &&
      isValidValue (o.readTemperature s.world.nTemperature)) = false := by
    simpa [attemptOk] using h
  simp only [readSensorLoop, readHumidity, readTemperature, emit, delay]
  rw [if_neg (by simp [h0])]
  simp [failedState, failedAttempt]

theorem readSensorLoop_skip (o : Oracle) (k : Nat) :
    ∀ (s : St) (data : SensorData) (n : Nat),
      (∀ j, j < k → attemptOk o s j = false) →
      readSensorLoop o (k + n) data s = readSensorLoop o n data (failedState k s) := by
  induction k with
  | zero => intro s data n _; simp [failedState_zero]
  | succ k ih =>
    intro s data n h
    have h0 := h 0 (Nat.succ_pos k)
    have e : k + 1 + n = (k + n) + 1 := by omega
    rw [e, readSensorLoop_failed_step o (k + n) data s h0, ih (failedState 1 s) data n,
      failedState_succ]
    intro j hj
    rw [attemptOk_failedState]
    exact h (1 + j) (by omega)

theorem readSensorLoop_ok_step (o : Oracle) (n : Nat) (data : SensorData) (s : St)
    (h : attemptOk o s 0 = true) :
    readSensorLoop o (n + 1) data s =
      ({ temperature := o.readTemperature s.world.nTemperature
         humidity := o.readHumidity s.world.nHumidity
         timestamp := o.millis s.world.nMillis % ULONG_MOD
         is_valid := true },
       { s with world := { s.world with
           nHumidity := s.world.nHumidity + 1
           nTemperature := s.world.nTemperature + 1
           nMillis := s.world.nMillis + 1
           trace := s.world.trace ++ [.readHumidity, .readTemperature] } }) := by
  have h0 : (isValidValue (o.readHumidity s.world.nHumidity) &&
      isValidValue (o.readTemperature s.world.nTemperature)) = true := by
    simpa [attemptOk] using h
  simp only [readSensorLoop, readHumidity, readTemperature, emit, millis]
  rw [if_pos h0]
  simp

/-- The reading and state produced when attempt `i` is the first accepted one. -/
theorem readSensor_first_ok (o : Oracle) (cfg : Config) (s : St) (i : Nat)
    (hi : i < cfg.SENSOR_RETRY_COUNT) (hok : attemptOk o s i = true)
    (hbefore : ∀ j, j < i → attemptOk o s j = false) :
    readSensor o cfg s =
      ({ temperature := o.readTemperature (s.world.nTemperature + i)
         humidity := o.readHumidity (s.world.nHumidity + i)
         timestamp := o.millis s.world.nMillis % ULONG_MOD
         is_valid := true },
       { s with world := { s.world with
           nHumidity := s.world.nHumidity + (i + 1)
           nTemperature := s.world.nTemperature + (i + 1)
           nMillis := s.world.nMillis + 1
           trace := s.world.trace ++ (List.replicate i failedAttempt).flatten ++
             [.readHumidity, .readTemperature] } }) := by
  obtain ⟨m, hm⟩ : ∃ m, cfg.SENSOR_RETRY_COUNT = i + (m + 1) := ⟨cfg.SENSOR_RETRY_COUNT - i - 1, by omega⟩
  have hok0 : attemptOk o (failedState i s) 0 = true := by
    rw [attemptOk_failedState]; simpa using hok
  rw [readSensor, hm, readSensorLoop_skip o i s _ (m + 1) hbefore,
    readSensorLoop_ok_step o m _ _ hok0]
  simp [failedState, Nat.add_assoc]

/-- The reading and state produced when every attempt is rejected. -/
theorem readSensor_all_failed (o : Oracle) (cfg : Config) (s : St)
    (h : ∀ j, j < cfg.SENSOR_RETRY_COUNT → attemptOk o s j = false) :
    readSensor o cfg s = (SensorData.zero, failedState cfg.SENSOR_RETRY_COUNT s) := by
  have := readSensorLoop_skip o cfg.SENSOR_RETRY_COUNT s SensorData.zero 0 h
  simpa [readSensor, readSensorLoop] using this

/-! ### The polling loop and `connectWiFi` -/

theorem pollLoop_frame (o : Oracle) (cfg : Config) (st : Nat) :
    ∀ (fuel : Nat) (s sf : St), pollLoop o cfg st fuel s = some sf →
      sf.prog = s.prog ∧
      sf.world.nMqttConnected = s.world.nMqttConnected ∧
      sf.world.nWifiStatus ≥ s.world.nWifiStatus + 1 ∧
      ∃ k, sf.world.trace = s.world.trace ++ List.replicate k (Event.delay 500) := by
  intro fuel
  induction fuel with
  | zero => intro s sf h; simp [pollLoop] at h
  | succ fuel ih =>
    intro s sf h
    simp only [pollLoop, wifiConnected, millis] at h
    split at h
    · simp only [Option.some.injEq] at h
      subst h
      exact ⟨rfl, rfl, by simp, 0, by simp⟩
    · split at h
      · obtain ⟨h1, h2, h3, k, hk⟩ := ih _ _ h
        refine ⟨by simpa [delay, emit] using h1, by simpa [delay, emit] using h2, ?_, k + 1, ?_⟩
        · simp [delay, emit] at h3; omega
        · simp [delay, emit] at hk
          simp [hk, List.replicate_succ]
      · simp only [Option.some.injEq] at h
        subst h
        exact ⟨rfl, rfl, by simp, 0, by simp⟩

theorem pollLoop_returns (o : Oracle) (cfg : Config) (st : Nat) :
    ∀ (j : Nat) (s : St), pollExit o cfg st s j = true →
      ∀ fuel, j < fuel → (pollLoop o cfg st fuel s).isSome = true := by
  intro j
  induction j with
  | zero =>
    intro s h fuel hf
    obtain ⟨f, rfl⟩ : ∃ f, fuel = f + 1 := ⟨fuel - 1, by omega⟩
    simp only [pollExit, Nat.add_zero, Bool.or_eq_true, Bool.not_eq_true', decide_eq_false_iff_not] at h
    simp only [pollLoop, wifiConnected, millis]
    rcases h with h | h
    · simp [h]
    · by_cases hw : o.wifiStatus s.world.nWifiStatus = true <;> simp [hw, h]
  | succ j ih =>
    intro s h fuel hf
    obtain ⟨f, rfl⟩ : ∃ f, fuel = f + 1 := ⟨fuel - 1, by omega⟩
    simp only [pollLoop, wifiConnected, millis]
    split
    · rfl
    · split
      · apply ih
        · simpa [pollExit, delay, emit, Nat.add_assoc, Nat.add_comm 1 j] using h
        · omega
      · rfl

/-- Effect of `connectWiFi` when the link is already up at entry. -/
theorem connectWiFi_connected (o : Oracle) (cfg : Config) (fuel : Nat) (s : St)
    (h : o.wifiStatus s.world.nWifiStatus = true) :
    connectWiFi o cfg fuel s =
      some (true, { s with world := { s.world with
        nWifiStatus := s.world.nWifiStatus + 1
        trace := s.world.trace ++ [.enterConnectWiFi] } }) := by
  simp [connectWiFi, wifiConnected, emit, h]

/-- Effect of `connectWiFi` when the link is down at entry. -/
theorem connectWiFi_down (o : Oracle) (cfg : Config) (fuel : Nat) (s sf : St) (r : Bool)
    (h : o.wifiStatus s.world.nWifiStatus = false)
    (hr : connectWiFi o cfg fuel s = some (r, sf)) :
    r = o.wifiStatus (sf.world.nWifiStatus - 1) ∧
    sf.prog = { s.prog with systemStatus := { s.prog.systemStatus with
      wifi_connected := r
      reconnect_attempts :=
        if r then 0 else (s.prog.systemStatus.reconnect_attempts + 1) % U32_MOD } } ∧
    sf.world.nMqttConnected = s.world.nMqttConnected ∧
    ∃ k, sf.world.trace =
      s.world.trace ++ [.enterConnectWiFi, .wifiBegin] ++ List.replicate k (Event.delay 500) := by
  simp only [connectWiFi, wifiConnected, emit, h, millis] at hr
  simp only [Bool.false_eq_true, if_false] at hr
  split at hr
  · simp at hr
  · rename_i s4 hp
    obtain ⟨h1, h2, _, k, hk⟩ := pollLoop_frame o cfg _ _ _ _ hp
    simp only at h1 h2 hk
    split at hr
    · rename_i hup
      simp only [Option.some.injEq, Prod.mk.injEq] at hr
      obtain ⟨rfl, rfl⟩ := hr
      refine ⟨by simp [setStatus, hup], by simp [setStatus, h1], by simp [setStatus, h2], k, ?_⟩
      simp [setStatus, hk]
    · rename_i hup
      simp only [Option.some.injEq, Prod.mk.injEq] at hr
      obtain ⟨rfl, rfl⟩ := hr
      refine ⟨by simp [setStatus, hup], by simp [setStatus, h1], by simp [setStatus, h2], k, ?_⟩
      simp [setStatus, hk]

/-- The call `connectWiFi` returns as soon as the fuel exceeds the index of a
poll at which the loop condition is false. -/
theorem connectWiFi_returns (o : Oracle) (cfg : Config) (s : St) (j : Nat)
    (h : (o.wifiStatus (s.world.nWifiStatus + 1 + j) ||
      !decide (usub (o.millis (s.world.nMillis + 1 + j) % ULONG_MOD)
        (o.millis s.world.nMillis % ULONG_MOD) < cfg.WIFI_TIMEOUT)) = true)
    (fuel : Nat) (hf : j < fuel) :
    (connectWiFi o cfg fuel s).isSome = true := by
  simp only [connectWiFi, wifiConnected, emit, millis]
  split
  · rfl
  · have := pollLoop_returns o cfg (o.millis s.world.nMillis % ULONG_MOD) j
      { s with world := { s.world with
          nWifiStatus := s.world.nWifiStatus + 1
          nMillis := s.world.nMillis + 1
          trace := s.world.trace ++ [.enterConnectWiFi] ++ [.wifiBegin] } }
      (by simpa [pollExit] using h) fuel hf
    revert this
    cases hp : pollLoop o cfg (o.millis s.world.nMillis % ULONG_MOD) fuel _ with
    | none => intro h2; simp [hp] at h2
    | some s4 =>
      intro _
      simp only
      split <;> rfl

/-- What every completed call of `connectWiFi` leaves unchanged, and the
calls it makes. -/
theorem connectWiFi_frame (o : Oracle) (cfg : Config) (fuel : Nat) (s sf : St) (r : Bool)
    (hr : connectWiFi o cfg fuel s = some (r, sf)) :
    sf.cache = s.cache ∧
    sf.prog.lastWifiCheck = s.prog.lastWifiCheck ∧
    sf.prog.lastMqttCheck = s.prog.lastMqttCheck ∧
    sf.world.nMqttConnected = s.world.nMqttConnected ∧
    sf.calls .enterConnectWiFi = s.calls .enterConnectWiFi + 1 ∧
    sf.calls .enterConnectMQTT = s.calls .enterConnectMQTT ∧
    sf.calls .mqttConnect = s.calls .mqttConnect ∧
    (sf.prog.systemStatus.reconnect_attempts ≤ s.prog.systemStatus.reconnect_attempts ∨
      (r = false ∧ o.wifiStatus s.world.nWifiStatus = false)) := by
  cases h : o.wifiStatus s.world.nWifiStatus with
  | true =>
    rw [connectWiFi_connected o cfg fuel s h] at hr
    simp only [Option.some.injEq, Prod.mk.injEq] at hr
    obtain ⟨rfl, rfl⟩ := hr
    simp [St.cache, St.calls]
  | false =>
    obtain ⟨_, h2, h3, k, hk⟩ := connectWiFi_down o cfg fuel s sf r h hr
    refine ⟨by simp [St.cache, h2], by simp [h2], by simp [h2], h3, ?_, ?_, ?_, ?_⟩
    · simp [St.calls, hk, List.count_replicate]
    · simp [St.calls, hk, List.count_replicate]
    · simp [St.calls, hk, List.count_replicate]
    · cases r with
      | true => left; simp [h2]
      | false => right; exact ⟨rfl, rfl⟩

/-- The state after a `publishStatus` call. -/
theorem publishStatus_eq (o : Oracle) (status : String) (s : St) :
    publishStatus o status s =
      (o.mqttPublish s.world.nPublish,
       { s with world := { s.world with
           nMillis := s.world.nMillis + 2
           nRssi := s.world.nRssi + 1
           nFreeHeap := s.world.nFreeHeap + 1
           nPublish := s.world.nPublish + 1
           trace := s.world.trace ++ [.publish .STATUS_TOPIC
             (statusDoc status (isoTimestampOf (o.millis s.world.nMillis % ULONG_MOD))
               (o.millis (s.world.nMillis + 1) % ULONG_MOD)
               (o.rssi s.world.nRssi) (o.freeHeap s.world.nFreeHeap))] } }) := by
  simp [publishStatus, getISOTimestamp, millis, wifiRSSI, getFreeHeap, mqttPublish, emit,
    JsonDoc.set, statusDoc]

/-- What `connectMQTT` leaves unchanged, and the calls it makes. -/
theorem connectMQTT_frame (o : Oracle) (s : St) :
    (connectMQTT o s).2.cache = s.cache ∧
    (connectMQTT o s).2.prog.lastWifiCheck = s.prog.lastWifiCheck ∧
    (connectMQTT o s).2.prog.lastMqttCheck = s.prog.lastMqttCheck ∧
    (connectMQTT o s).2.calls .enterConnectWiFi = s.calls .enterConnectWiFi ∧
    (connectMQTT o s).2.calls .enterConnectMQTT = s.calls .enterConnectMQTT + 1 ∧
    (connectMQTT o s).2.calls .mqttConnect =
      s.calls .mqttConnect + (if o.mqttConnected s.world.nMqttConnected then 0 else 1) ∧
    ((connectMQTT o s).2.prog.systemStatus.reconnect_attempts =
        s.prog.systemStatus.reconnect_attempts ∨
      (connectMQTT o s).2.prog.systemStatus.reconnect_attempts = 0) := by
  simp only [connectMQTT, mqttConnected, mqttConnect, emit, publishStatus_eq, setStatus]
  cases o.mqttConnected s.world.nMqttConnected <;> cases o.mqttConnect s.world.nMqttConnect <;>
    simp [St.cache, St.calls]

/-! ### `maintainConnectivity` -/

theorem maintainWiFi_frame (o : Oracle) (cfg : Config) (fuel now : Nat) (s sf : St)
    (h : maintainWiFi o cfg fuel now s = some sf) :
    sf.cache = s.cache ∧
    sf.prog.lastMqttCheck = s.prog.lastMqttCheck ∧
    sf.world.nMqttConnected = s.world.nMqttConnected ∧
    sf.calls .enterConnectWiFi = s.calls .enterConnectWiFi +
      (if (decide (usub now s.prog.lastWifiCheck > 30000) &&
          !o.wifiStatus s.world.nWifiStatus) = true then 1 else 0) ∧
    sf.calls .enterConnectMQTT = s.calls .enterConnectMQTT ∧
    sf.calls .mqttConnect = s.calls .mqttConnect ∧
    (sf.prog.systemStatus.reconnect_attempts ≤ s.prog.systemStatus.reconnect_attempts ∨
      ((decide (usub now s.prog.lastWifiCheck > 30000) &&
          !o.wifiStatus s.world.nWifiStatus) = true ∧
        sf.prog.systemStatus.reconnect_attempts =
          (s.prog.systemStatus.reconnect_attempts + 1) % U32_MOD)) := by
  unfold maintainWiFi at h
  by_cases hg : usub now s.prog.lastWifiCheck > 30000
  · rw [if_pos hg] at h
    simp only [wifiConnected] at h
    cases hw : o.wifiStatus s.world.nWifiStatus with
    | true =>
      simp only [hw, Bool.not_true, Bool.false_eq_true, if_false, Option.some.injEq] at h
      subst h
      simp [St.cache, St.calls]
    | false =>
      simp only [hw, Bool.not_false, if_true] at h
      split at h
      · simp at h
      · rename_i r s3 hc
        simp only [Option.some.injEq] at h
        subst h
        obtain ⟨c1, _, c3, c4, c5, c6, c7, c8⟩ := connectWiFi_frame o cfg fuel _ _ _ hc
        refine ⟨?_, ?_, ?_, ?_, ?_, ?_, ?_⟩
        · simpa [St.cache, setStatus] using c1
        · simpa [setStatus] using c3
        · simpa [setStatus] using c4
        · simpa [St.calls, setStatus, hg] using c5
        · simpa [St.calls, setStatus] using c6
        · simpa [St.calls, setStatus] using c7
        · rcases c8 with c8 | ⟨rfl, hdown⟩
          · left; simpa [setStatus] using c8
          · right
            refine ⟨by simp [hg], ?_⟩
            have := (connectWiFi_down o cfg fuel _ _ _ hdown hc).2.1
            simp [this, setStatus]
  · rw [if_neg hg] at h
    simp only [Option.some.injEq] at h
    subst h
    simp [hg]

theorem maintainMQTT_frame (o : Oracle) (now : Nat) (s : St) :
    (maintainMQTT o now s).cache = s.cache ∧
    (maintainMQTT o now s).prog.lastWifiCheck = s.prog.lastWifiCheck ∧
    (maintainMQTT o now s).calls .enterConnectWiFi = s.calls .enterConnectWiFi ∧
    (maintainMQTT o now s).calls .enterConnectMQTT = s.calls .enterConnectMQTT +
      (if (decide (usub now s.prog.lastMqttCheck > 10000) &&
          !o.mqttConnected s.world.nMqttConnected) = true then 1 else 0) ∧
    (maintainMQTT o now s).calls .mqttConnect ≤ s.calls .mqttConnect +
      (if (decide (usub now s.prog.lastMqttCheck > 10000) &&
          !o.mqttConnected s.world.nMqttConnected) = true then 1 else 0) ∧
    s.calls .mqttConnect ≤ (maintainMQTT o now s).calls .mqttConnect ∧
    ((maintainMQTT o now s).prog.systemStatus.reconnect_attempts =
        s.prog.systemStatus.reconnect_attempts ∨
      (maintainMQTT o now s).prog.systemStatus.reconnect_attempts = 0) := by
  unfold maintainMQTT
  by_cases hg : usub now s.prog.lastMqttCheck > 10000
  · rw [if_pos hg]
    simp only [mqttConnected]
    cases hw : o.mqttConnected s.world.nMqttConnected with
    | true => simp [St.cache, St.calls]
    | false =>
      simp only [Bool.not_false, if_true]
      obtain ⟨c1, c2, _, c4, c5, c6, c7⟩ := connectMQTT_frame o
        (setStatus (fun st => { st with mqtt_connected := false })
          { s with world := { s.world with nMqttConnected := s.world.nMqttConnected + 1 } })
      refine ⟨?_, ?_, ?_, ?_, ?_, ?_, ?_⟩
      · simpa [St.cache, setStatus] using c1
      · simpa [setStatus] using c2
      · simpa [St.calls, setStatus] using c4
      · simpa [St.calls, setStatus, hg] using c5
      · simp only [St.calls, setStatus] at c6 ⊢
        simp only [hg, decide_True, Bool.and_self, if_true]
        rw [c6]
        split <;> omega
      · simp only [St.calls, setStatus] at c6 ⊢
        rw [c6]
        omega
      · simpa [setStatus] using c7
  · rw [if_neg hg]
    simp [hg]

/-- What a completed `maintainConnectivity` leaves unchanged, and which
connection routines it enters. -/
theorem maintainConnectivity_frame (o : Oracle) (cfg : Config) (fuel : Nat) (s sf : St)
    (h : maintainConnectivity o cfg fuel s = some sf) :
    sf.cache = s.cache ∧
    sf.calls .enterConnectWiFi = s.calls .enterConnectWiFi +
      (if wifiGateOpen o s = true then 1 else 0) ∧
    sf.calls .enterConnectMQTT = s.calls .enterConnectMQTT +
      (if mqttGateOpen o s = true then 1 else 0) ∧
    sf.calls .mqttConnect ≤ s.calls .mqttConnect +
      (if mqttGateOpen o s = true then 1 else 0) ∧
    s.calls .mqttConnect ≤ sf.calls .mqttConnect ∧
    (sf.prog.systemStatus.reconnect_attempts ≤ s.prog.systemStatus.reconnect_attempts ∨
      (wifiGateOpen o s = true ∧
        sf.prog.systemStatus.reconnect_attempts =
          (s.prog.systemStatus.reconnect_attempts + 1) % U32_MOD)) := by
  simp only [maintainConnectivity, millis] at h
  split at h
  · simp at h
  · rename_i s2 hw
    simp only [Option.some.injEq] at h
    subst h
    obtain ⟨a1, a2, a3, a4, a5, a6, a7⟩ := maintainWiFi_frame o cfg fuel _ _ _ hw
    obtain ⟨b1, _, b3, b4, b5, b6, b7⟩ :=
      maintainMQTT_frame o (o.millis s.world.nMillis % ULONG_MOD) s2
    simp only [St.calls, St.cache] at a1 a2 a3 a4 a5 a6 a7 b1 b3 b4 b5 b6 b7
    simp only [St.calls, St.cache, wifiGateOpen, mqttGateOpen]
    refine ⟨by rw [b1, a1], by rw [b3, a4], by rw [b4, a5, a2, a3], ?_, ?_, ?_⟩
    · rw [a2, a3, a6] at b5; exact b5
    · rw [a6] at b6; exact b6
    · rcases b7 with b7 | b7
      · rw [b7]; exact a7
      · left; rw [b7]; exact Nat.zero_le _

/-! ### Sampling and publication -/

/-- The state after `updateSystemStatus`. -/
theorem updateSystemStatus_eq (o : Oracle) (s : St) :
    updateSystemStatus o s =
      { prog := { s.prog with systemStatus := { s.prog.systemStatus with
          uptime := o.millis s.world.nMillis % ULONG_MOD
          wifi_connected := o.wifiStatus s.world.nWifiStatus
          mqtt_connected := o.mqttConnected s.world.nMqttConnected } }
        world := { s.world with
          nMillis := s.world.nMillis + 1
          nWifiStatus := s.world.nWifiStatus + 1
          nMqttConnected := s.world.nMqttConnected + 1 } } := by
  simp [updateSystemStatus, millis, wifiConnected, mqttConnected, setStatus]

theorem readSensorLoop_frame (o : Oracle) :
    ∀ (n : Nat) (data : SensorData) (s : St),
      (readSensorLoop o n data s).2.prog = s.prog ∧
      (readSensorLoop o n data s).2.world.nPublish = s.world.nPublish ∧
      ((readSensorLoop o n data s).1 = data ∨ (readSensorLoop o n data s).1.Good) := by
  intro n
  induction n with
  | zero => intro data s; simp [readSensorLoop]
  | succ n ih =>
    intro data s
    simp only [readSensorLoop, readHumidity, readTemperature, emit, millis, delay]
    split
    · rename_i hv
      simp only [Bool.and_eq_true] at hv
      refine ⟨rfl, rfl, Or.inr ⟨rfl, hv.2, hv.1⟩⟩
    · obtain ⟨h1, h2, h3⟩ := ih data
        { s with world := { s.world with
            nHumidity := s.world.nHumidity + 1
            nTemperature := s.world.nTemperature + 1
            trace := s.world.trace ++ [.readHumidity] ++ [.readTemperature] ++ [.delay 1000] } }
      exact ⟨h1, h2, h3⟩

/-- The call `readSensor` changes no global, publishes nothing, and returns
the zero reading or an accepted one. -/
theorem readSensor_frame (o : Oracle) (cfg : Config) (s : St) :
    (readSensor o cfg s).2.prog = s.prog ∧
    (readSensor o cfg s).2.world.nPublish = s.world.nPublish ∧
    ((readSensor o cfg s).1 = SensorData.zero ∨ (readSensor o cfg s).1.Good) :=
  readSensorLoop_frame o cfg.SENSOR_RETRY_COUNT SensorData.zero s

/-- The state after `publishSensorData` on a reading flagged valid. -/
theorem publishSensorData_valid (o : Oracle) (cfg : Config) (data : SensorData) (s : St)
    (hv : data.is_valid = true) :
    publishSensorData o cfg data s =
      (o.mqttPublish s.world.nPublish,
       { prog :=
           if o.mqttPublish s.world.nPublish = true then
             { s.prog with lastPublishTime := o.millis (s.world.nMillis + 2) % ULONG_MOD }
           else s.prog
         world := { s.world with
           nMillis := s.world.nMillis + (if o.mqttPublish s.world.nPublish = true then 3 else 2)
           nPublish := s.world.nPublish + 1
           trace := s.world.trace ++ [.publish .PUB_TOPIC
             (dataDoc cfg data (isoTimestampOf (o.millis s.world.nMillis % ULONG_MOD))
               (o.millis (s.world.nMillis + 1) % ULONG_MOD))] } }) := by
  simp only [publishSensorData, hv, getISOTimestamp, millis, mqttPublish, emit]
  cases o.mqttPublish s.world.nPublish <;> simp

theorem samplingStep_eq (o : Oracle) (cfg : Config) (pre : St) :
    samplingStep o cfg pre =
      if sampleGate o cfg pre = true then
        afterRead o cfg (sampleNow o pre) (readSensor o cfg (millis o pre).2).1
          (readSensor o cfg (millis o pre).2).2
      else (millis o pre).2 := by
  simp only [samplingStep, sampleGate, sampleNow, afterRead, millis, decide_eq_true_eq]

theorem afterRead_prog (o : Oracle) (cfg : Config) (now : Nat) (d : SensorData) (s2 : St) :
    (afterRead o cfg now d s2).prog =
      if (d.is_valid && o.mqttPublish s2.world.nPublish) = true then
        { s2.prog with
          lastSensorData := d
          systemStatus := { s2.prog.systemStatus with last_sensor_read := now }
          lastPublishTime := now }
      else { s2.prog with lastPublishTime := now } := by
  cases hv : d.is_valid with
  | false => simp [afterRead, hv, publishStatus_eq]
  | true =>
    simp only [afterRead, hv, if_true, publishSensorData_valid o cfg d s2 hv, Bool.true_and]
    cases hp : o.mqttPublish s2.world.nPublish <;> simp [setStatus]

/-- The globals after the sampling step. -/
theorem samplingStep_prog (o : Oracle) (cfg : Config) (pre : St) :
    (samplingStep o cfg pre).prog =
      if sampleGate o cfg pre = true then
        if ((sampleReading o cfg pre).is_valid && samplePublishOk o pre) = true then
          { pre.prog with
            lastSensorData := sampleReading o cfg pre
            systemStatus := { pre.prog.systemStatus with last_sensor_read := sampleNow o pre }
            lastPublishTime := sampleNow o pre }
        else { pre.prog with lastPublishTime := sampleNow o pre }
      else pre.prog := by
  obtain ⟨f1, f2, _⟩ := readSensor_frame o cfg (millis o pre).2
  rw [samplingStep_eq]
  cases hg : sampleGate o cfg pre with
  | false => simp [millis]
  | true =>
    simp only [if_true, afterRead_prog, f1, f2, sampleReading, samplePublishOk]
    simp [millis]

theorem loopPre_cache (o : Oracle) (s1 : St) : (loopPre o s1).cache = s1.cache := by
  simp [loopPre, updateSystemStatus_eq, emit, St.cache]

theorem loopPre_attempts (o : Oracle) (s1 : St) :
    (loopPre o s1).prog.systemStatus.reconnect_attempts =
      s1.prog.systemStatus.reconnect_attempts := by
  simp [loopPre, updateSystemStatus_eq, emit]

/-- One iteration is `maintainConnectivity` followed by the rest of the body. -/
theorem loop_eq_some (o : Oracle) (cfg : Config) (fuel : Nat) (s sEnd : St)
    (h : loop o cfg fuel s = some sEnd) :
    ∃ s1, maintainConnectivity o cfg fuel s = some s1 ∧
      sEnd = delay 100 (samplingStep o cfg (loopPre o s1)) := by
  unfold loop at h
  split at h
  · simp at h
  · rename_i s1 hm
    simp only [Option.some.injEq] at h
    exact ⟨s1, hm, by rw [← h]; rfl⟩

/-! ### Facts used by the main theorems -/

theorem isValidValue_iff (v : Flt) :
    isValidValue v = true ↔ ∃ q : ℚ, v = .fin q ∧ -100 < q ∧ q < 200 := by
  cases v with
  | nan => simp [isValidValue, Flt.isnan]
  | negInf => simp [isValidValue, Flt.isnan, Flt.gt, Flt.lt]
  | posInf => simp [isValidValue, Flt.isnan, Flt.gt, Flt.lt]
  | fin q => simp [isValidValue, Flt.isnan, Flt.gt, Flt.lt]

theorem exists_first_ok (o : Oracle) (s : St) (n : Nat)
    (h : ∃ i, i < n ∧ attemptOk o s i = true) :
    ∃ i, i < n ∧ attemptOk o s i = true ∧ ∀ j, j < i → attemptOk o s j = false := by
  classical
  have hex : ∃ i, attemptOk o s i = true := by
    obtain ⟨i, _, hi⟩ := h
    exact ⟨i, hi⟩
  refine ⟨Nat.find hex, ?_, Nat.find_spec hex, ?_⟩
  · obtain ⟨i, hi, hok⟩ := h
    exact lt_of_le_of_lt (Nat.find_min' hex hok) hi
  · intro j hj
    have := Nat.find_min hex hj
    simpa using this

theorem dataDoc_alert (cfg : Config) (data : SensorData) (ts : String) (up : Nat) :
    (dataDoc cfg data ts up).countKey "alert" ≤ 1 ∧
    (data.temperature.gt cfg.TEMP_ALERT_THRESHOLD = true →
      (dataDoc cfg data ts up).get "alert" = some (.str "high_temperature")) ∧
    (data.temperature.gt cfg.TEMP_ALERT_THRESHOLD = false →
      (data.humidity.lt cfg.HUMIDITY_MIN_THRESHOLD = true ∨
        data.humidity.gt cfg.HUMIDITY_MAX_THRESHOLD = true) →
      (dataDoc cfg data ts up).get "alert" = some (.str "humidity_out_of_range")) ∧
    (data.temperature.gt cfg.TEMP_ALERT_THRESHOLD = false →
      data.humidity.lt cfg.HUMIDITY_MIN_THRESHOLD = false →
      data.humidity.gt cfg.HUMIDITY_MAX_THRESHOLD = false →
      (dataDoc cfg data ts up).get "alert" = none ∧
      (dataDoc cfg data ts up).countKey "alert" = 0) ∧
    (dataDoc cfg data ts up).get "temperature" = some (.num data.temperature.round2) ∧
    (dataDoc cfg data ts up).get "humidity" = some (.num data.humidity.round2) := by
  cases h1 : data.temperature.gt cfg.TEMP_ALERT_THRESHOLD <;>
    cases h2 : data.humidity.lt cfg.HUMIDITY_MIN_THRESHOLD <;>
    cases h3 : data.humidity.gt cfg.HUMIDITY_MAX_THRESHOLD <;>
    simp [dataDoc, setAlert, JsonDoc.set, JsonDoc.get, JsonDoc.countKey, h1, h2, h3]

theorem connectWiFiTimes_connected (o : Oracle) (cfg : Config) (fuel : Nat) :
    ∀ (n : Nat) (s : St), (∀ i, i < n → o.wifiStatus (s.world.nWifiStatus + i) = true) →
      connectWiFiTimes o cfg fuel n s =
        some (List.replicate n true, { s with world := { s.world with
          nWifiStatus := s.world.nWifiStatus + n
          trace := s.world.trace ++ List.replicate n .enterConnectWiFi } }) := by
  intro n
  induction n with
  | zero => intro s _; simp [connectWiFiTimes]
  | succ n ih =>
    intro s h
    have h0 : o.wifiStatus s.world.nWifiStatus = true := by simpa using h 0 (Nat.succ_pos n)
    rw [connectWiFiTimes, connectWiFi_connected o cfg fuel s h0]
    simp only
    rw [ih]
    · simp [List.replicate_succ, Nat.add_assoc, Nat.add_comm 1 n]
    · intro i hi
      have := h (i + 1) (by omega)
      simpa [Nat.add_assoc, Nat.add_comm 1 i] using this

theorem samplingStep_attempts (o : Oracle) (cfg : Config) (pre : St) :
    (samplingStep o cfg pre).prog.systemStatus.reconnect_attempts =
      pre.prog.systemStatus.reconnect_attempts := by
  rw [samplingStep_prog]
  split
  · split <;> rfl
  · rfl

theorem publishSensorData_attempts (o : Oracle) (cfg : Config) (d : SensorData) (s : St) :
    (publishSensorData o cfg d s).2.prog.systemStatus.reconnect_attempts =
      s.prog.systemStatus.reconnect_attempts := by
  cases hv : d.is_valid with
  | false => simp [publishSensorData, hv]
  | true =>
    rw [publishSensorData_valid o cfg d s hv]
    simp only
    split <;> rfl

/-- The trace of a sampling step whose gate has elapsed and whose sensor
attempts are all rejected. -/
theorem samplingStep_sensor_error (o : Oracle) (cfg : Config) (pre : St)
    (hg : sampleGate o cfg pre = true)
    (hfail : ∀ j, j < cfg.SENSOR_RETRY_COUNT → attemptOk o pre j = false) :
    (samplingStep o cfg pre).world.trace =
      pre.world.trace ++ (List.replicate cfg.SENSOR_RETRY_COUNT failedAttempt).flatten ++
        [.publish .STATUS_TOPIC
          (statusDoc "sensor_error"
            (isoTimestampOf (o.millis (pre.world.nMillis + 1) % ULONG_MOD))
            (o.millis (pre.world.nMillis + 2) % ULONG_MOD)
            (o.rssi pre.world.nRssi) (o.freeHeap pre.world.nFreeHeap))] ∧
    (samplingStep o cfg pre).world.nPublish = pre.world.nPublish + 1 := by
  have hf2 : ∀ j, j < cfg.SENSOR_RETRY_COUNT → attemptOk o (millis o pre).2 j = false := hfail
  rw [samplingStep_eq, if_pos hg, readSensor_all_failed o cfg _ hf2]
  simp [afterRead, SensorData.zero, publishStatus_eq, failedState, millis]

theorem maintainConnectivity_lastMqttCheck (o : Oracle) (cfg : Config) (fuel : Nat) (s sf : St)
    (h : maintainConnectivity o cfg fuel s = some sf) :
    sf.prog.lastMqttCheck =
      if usub (o.millis s.world.nMillis % ULONG_MOD) s.prog.lastMqttCheck > 10000 then
        o.millis s.world.nMillis % ULONG_MOD
      else s.prog.lastMqttCheck := by
  simp only [maintainConnectivity, millis] at h
  split at h
  · simp at h
  · rename_i s2 hw
    simp only [Option.some.injEq] at h
    subst h
    have a2 := (maintainWiFi_frame o cfg fuel _ _ _ hw).2.1
    simp only at a2
    unfold maintainMQTT
    rw [a2]
    split
    · simp only [mqttConnected]
      split
      · have c3 := (connectMQTT_frame o
          (setStatus (fun st => { st with mqtt_connected := false })
            { s2 with world := { s2.world with nMqttConnected := s2.world.nMqttConnected + 1 } })).2.2.1
        simp
      · simp
    · exact a2

/-- The call `maintainConnectivity` returns, whatever the fuel, when it does
not enter `connectWiFi`. -/
theorem maintainConnectivity_returns_closed (o : Oracle) (cfg : Config) (fuel : Nat) (s : St)
    (h : wifiGateOpen o s = false) :
    (maintainConnectivity o cfg fuel s).isSome = true := by
  simp only [wifiGateOpen, Bool.and_eq_false_imp, decide_eq_true_eq, Bool.not_eq_false'] at h
  simp only [maintainConnectivity, millis, maintainWiFi, wifiConnected]
  by_cases hg : usub (o.millis s.world.nMillis % ULONG_MOD) s.prog.lastWifiCheck > 30000
  · simp [hg, h hg]
  · simp [hg]

/-- The call `maintainConnectivity` returns as soon as the fuel exceeds the
index of a poll of `connectWiFi` at which the loop condition is false. -/
theorem maintainConnectivity_returns (o : Oracle) (cfg : Config) (s : St) (j : Nat)
    (h : (o.wifiStatus (s.world.nWifiStatus + 2 + j) ||
      !decide (usub (o.millis (s.world.nMillis + 2 + j) % ULONG_MOD)
        (o.millis (s.world.nMillis + 1) % ULONG_MOD) < cfg.WIFI_TIMEOUT)) = true)
    (fuel : Nat) (hf : j < fuel) :
    (maintainConnectivity o cfg fuel s).isSome = true := by
  simp only [maintainConnectivity, millis, maintainWiFi, wifiConnected]
  by_cases hg : usub (o.millis s.world.nMillis % ULONG_MOD) s.prog.lastWifiCheck > 30000
  · cases hw : o.wifiStatus s.world.nWifiStatus with
    | true => simp [hg, hw]
    | false =>
      have hc := connectWiFi_returns o cfg
        (setStatus (fun st => { st with wifi_connected := false })
          { s with world := { s.world with
              nMillis := s.world.nMillis + 1
              nWifiStatus := s.world.nWifiStatus + 1 } }) j
        (by simpa [setStatus, Nat.add_assoc] using h) fuel hf
      simp only [hg, if_true, Bool.not_false]
      revert hc
      cases connectWiFi o cfg fuel
        (setStatus (fun st => { st with wifi_connected := false })
          { s with world := { s.world with
              nMillis := s.world.nMillis + 1
              nWifiStatus := s.world.nWifiStatus + 1 } }) with
      | none => intro hc; simp at hc
      | some x => intro _; rfl
  · simp [hg]

/-- An iteration of `loop` completes when it does not enter `connectWiFi`,
and otherwise as soon as the fuel exceeds the index of a poll at which the
polling loop ends. -/
theorem loop_returns (o : Oracle) (cfg : Config) (s : St) :
    (wifiGateOpen o s = false → ∀ fuel, (loop o cfg fuel s).isSome = true) ∧
    (∀ j fuel, wifiPollEnds o cfg s j = true → j < fuel →
      (loop o cfg fuel s).isSome = true) := by
  constructor
  · intro hclosed fuel
    have := maintainConnectivity_returns_closed o cfg fuel s hclosed
    revert this
    unfold loop
    cases maintainConnectivity o cfg fuel s with
    | none => intro hx; simp at hx
    | some x => intro _; rfl
  · intro j fuel hj hf
    have := maintainConnectivity_returns o cfg s j hj fuel hf
    revert this
    unfold loop
    cases maintainConnectivity o cfg fuel s with
    | none => intro hx; simp at hx
    | some x => intro _; rfl

theorem setup_cache (o : Oracle) (cfg : Config) (fuel : Nat) (s sf : St)
    (h : setup o cfg fuel s = some sf) : sf.cache = s.cache := by
  simp only [setup] at h
  split at h
  · simp at h
  · rename_i ok s7 hc
    have c1 := (connectWiFi_frame o cfg fuel _ _ _ hc).1
    have c2 : s7.cache = s.cache := by simpa [St.cache, emit, delay] using c1
    split at h
    · simp only [Option.some.injEq] at h
      rw [← h, (connectMQTT_frame o s7).1, c2]
    · simp only [Option.some.injEq] at h
      rw [← h, c2]

/-- The effect of a completed iteration on the cache, in terms of the state
`s1` left by `maintainConnectivity`. -/
theorem loop_cache (o : Oracle) (cfg : Config) (fuel : Nat) (s s1 : St)
    (hm : maintainConnectivity o cfg fuel s = some s1) :
    loop o cfg fuel s = some (delay 100 (samplingStep o cfg (loopPre o s1))) ∧
    (loopPre o s1).cache = s.cache ∧
    (delay 100 (samplingStep o cfg (loopPre o s1))).cache =
      if sampleGate o cfg (loopPre o s1) = true then
        if ((sampleReading o cfg (loopPre o s1)).is_valid &&
            samplePublishOk o (loopPre o s1)) = true then
          (sampleReading o cfg (loopPre o s1), sampleNow o (loopPre o s1),
            sampleNow o (loopPre o s1))
        else (s.prog.lastSensorData, sampleNow o (loopPre o s1),
          s.prog.systemStatus.last_sensor_read)
      else s.cache := by
  have hc : (loopPre o s1).cache = s.cache := by
    rw [loopPre_cache, (maintainConnectivity_frame o cfg fuel s s1 hm).1]
  refine ⟨by simp [loop, hm, loopRest, loopPre], hc, ?_⟩
  have hp : (delay 100 (samplingStep o cfg (loopPre o s1))).prog =
      (samplingStep o cfg (loopPre o s1)).prog := rfl
  simp only [St.cache, Prod.mk.injEq] at hc
  obtain ⟨hc1, hc2, hc3⟩ := hc
  simp only [St.cache, hp, samplingStep_prog]
  split
  · split
    · rfl
    · simp [hc1, hc3]
  · simp [hc1, hc2, hc3]

theorem sampleReading_good (o : Oracle) (cfg : Config) (pre : St)
    (h : (sampleReading o cfg pre).is_valid = true) : (sampleReading o cfg pre).Good := by
  rcases (readSensor_frame o cfg (millis o pre).2).2.2 with hz | hgood
  · have : (sampleReading o cfg pre) = SensorData.zero := hz
    rw [this] at h
    simp [SensorData.zero] at h
  · exact hgood

theorem reachable_lastSensorData (o : Oracle) (cfg : Config) (s : St)
    (h : Reachable o cfg s) :
    s.prog.lastSensorData = SensorData.zero ∨ s.prog.lastSensorData.Good := by
  rcases h with rfl | h
  · left; rfl
  induction h with
  | setup fuel s hs =>
    left
    have := setup_cache o cfg fuel _ _ hs
    simp only [St.cache, Prod.mk.injEq] at this
    rw [this.1]; rfl
  | loop fuel s sEnd _ hl ih =>
    obtain ⟨s1, hm, rfl⟩ := loop_eq_some o cfg fuel s sEnd hl
    have hc := (loop_cache o cfg fuel s s1 hm).2.2
    simp only [St.cache] at hc
    split at hc
    · split at hc
      · rename_i hv
        simp only [Bool.and_eq_true] at hv
        simp only [Prod.mk.injEq] at hc
        right
        rw [hc.1]
        exact sampleReading_good o cfg _ hv.1
      · simp only [Prod.mk.injEq] at hc
        rw [hc.1]; exact ih
    · simp only [Prod.mk.injEq] at hc
      rw [hc.1]; exact ih

/-! ### A node that never connects -/

theorem dead_wifi (k : Nat) : deadOracle.wifiStatus k = false := rfl
theorem dead_mqttConnected (k : Nat) : deadOracle.mqttConnected k = false := rfl
theorem dead_mqttConnect (k : Nat) : deadOracle.mqttConnect k = false := rfl
theorem dead_millis (k : Nat) : deadOracle.millis k = 60000 + 7000 * k := rfl

theorem dead_usub (n d : Nat) (hd : 7000 * d < 4294967296) :
    usub (deadOracle.millis (n + d) % ULONG_MOD) (deadOracle.millis n % ULONG_MOD) =
      7000 * d := by
  simp only [usub, ULONG_MOD, dead_millis]
  omega

theorem dead_connectWiFi (s : St) :
    ∃ sf, connectWiFi deadOracle demoCfg 2 s = some (false, sf) ∧
      sf.world.nMillis = s.world.nMillis + 3 ∧
      sf.prog = { s.prog with systemStatus := { s.prog.systemStatus with
        wifi_connected := false
        reconnect_attempts := (s.prog.systemStatus.reconnect_attempts + 1) % U32_MOD } } := by
  have e1 := dead_usub s.world.nMillis 1 (by decide)
  have e2 := dead_usub s.world.nMillis 2 (by decide)
  simp [connectWiFi, pollLoop, wifiConnected, millis, emit, delay, dead_wifi, setStatus,
    demoCfg, e1, e2]

theorem dead_maintainMQTT (now : Nat) (s : St) :
    (maintainMQTT deadOracle now s).world.nMillis = s.world.nMillis ∧
    (maintainMQTT deadOracle now s).prog.lastWifiCheck = s.prog.lastWifiCheck ∧
    (maintainMQTT deadOracle now s).prog.lastPublishTime = s.prog.lastPublishTime ∧
    (maintainMQTT deadOracle now s).prog.systemStatus.reconnect_attempts =
      s.prog.systemStatus.reconnect_attempts := by
  unfold maintainMQTT
  split <;>
    simp [mqttConnected, connectMQTT, mqttConnect, emit, setStatus, dead_mqttConnected,
      dead_mqttConnect]

/-- The result of `maintainConnectivity` when the wireless gate has
elapsed, the link is down and the `connectWiFi` call returns. -/
theorem maintainConnectivity_call (o : Oracle) (cfg : Config) (fuel : Nat) (s sf : St) (r : Bool)
    (hg : usub (o.millis s.world.nMillis % ULONG_MOD) s.prog.lastWifiCheck > 30000)
    (hw : o.wifiStatus s.world.nWifiStatus = false)
    (hc : connectWiFi o cfg fuel
      (setStatus (fun st => { st with wifi_connected := false })
        { s with world := { s.world with
            nMillis := s.world.nMillis + 1
            nWifiStatus := s.world.nWifiStatus + 1 } }) = some (r, sf)) :
    maintainConnectivity o cfg fuel s =
      some (maintainMQTT o (o.millis s.world.nMillis % ULONG_MOD)
        { sf with prog := { sf.prog with
            lastWifiCheck := o.millis s.world.nMillis % ULONG_MOD } }) := by
  have hg2 : usub (o.millis s.world.nMillis % ULONG_MOD)
      ({ s with world := { s.world with nMillis := s.world.nMillis + 1 } } : St).prog.lastWifiCheck
        > 30000 := hg
  unfold maintainConnectivity
  simp only [millis]
  unfold maintainWiFi
  rw [if_pos hg2]
  simp only [wifiConnected, hw, Bool.not_false, if_true]
  rw [hc]

theorem dead_maintainConnectivity (s : St) (h : DeadInv s) :
    ∃ s1, maintainConnectivity deadOracle demoCfg 2 s = some s1 ∧
      s1.world.nMillis = s.world.nMillis + 4 ∧
      s1.prog.lastWifiCheck = deadOracle.millis s.world.nMillis % ULONG_MOD ∧
      s1.prog.lastPublishTime = s.prog.lastPublishTime ∧
      s1.prog.systemStatus.reconnect_attempts =
        (s.prog.systemStatus.reconnect_attempts + 1) % U32_MOD := by
  obtain ⟨sf, c1, c2, c3⟩ := dead_connectWiFi
    (setStatus (fun st => { st with wifi_connected := false })
      { s with world := { s.world with
          nMillis := s.world.nMillis + 1
          nWifiStatus := s.world.nWifiStatus + 1 } })
  obtain ⟨m1, m2, m3, m4⟩ := dead_maintainMQTT (deadOracle.millis s.world.nMillis % ULONG_MOD)
    { sf with prog := { sf.prog with
        lastWifiCheck := deadOracle.millis s.world.nMillis % ULONG_MOD } }
  refine ⟨_, maintainConnectivity_call deadOracle demoCfg 2 s sf false h.1 (dead_wifi _) c1,
    ?_, ?_, ?_, ?_⟩
  · rw [m1]; simpa [setStatus] using c2
  · rw [m2]
  · rw [m3]; simp [c3, setStatus]
  · rw [m4]; simp [c3, setStatus]

theorem dead_attemptOk (s : St) (j : Nat) : attemptOk deadOracle s j = false := by
  simp [attemptOk, deadOracle, isValidValue, Flt.isnan]

theorem dead_samplingStep (pre : St) (hg : sampleGate deadOracle demoCfg pre = true) :
    (samplingStep deadOracle demoCfg pre).world.nMillis = pre.world.nMillis + 3 ∧
    (samplingStep deadOracle demoCfg pre).prog =
      { pre.prog with lastPublishTime := sampleNow deadOracle pre } := by
  constructor
  · rw [samplingStep_eq, if_pos hg,
      readSensor_all_failed deadOracle demoCfg _ (fun j _ => dead_attemptOk _ j)]
    simp [afterRead, SensorData.zero, publishStatus_eq, failedState, millis]
  · rw [samplingStep_prog, if_pos hg]
    have : (sampleReading deadOracle demoCfg pre).is_valid = false := by
      rw [sampleReading, readSensor_all_failed deadOracle demoCfg _ (fun j _ => dead_attemptOk _ j)]
      rfl
    simp [this]

/-- One iteration of the dead node: it completes, keeps the gate conditions,
and its failed `connectWiFi` call advances `reconnect_attempts` by one
modulo 2^32. -/
theorem dead_loop (s : St) (h : DeadInv s) :
    ∃ sEnd, loop deadOracle demoCfg 2 s = some sEnd ∧ DeadInv sEnd ∧
      sEnd.prog.systemStatus.reconnect_attempts =
        (s.prog.systemStatus.reconnect_attempts + 1) % U32_MOD := by
  obtain ⟨s1, a1, a2, a3, a4, a5⟩ := dead_maintainConnectivity s h
  have p1 : (loopPre deadOracle s1).world.nMillis = s.world.nMillis + 5 := by
    simp [loopPre, updateSystemStatus_eq, emit, a2]
  have p2 : (loopPre deadOracle s1).prog.lastPublishTime = s.prog.lastPublishTime := by
    simp [loopPre, updateSystemStatus_eq, emit, a4]
  have p3 : (loopPre deadOracle s1).prog.lastWifiCheck =
      deadOracle.millis s.world.nMillis % ULONG_MOD := by
    simp [loopPre, updateSystemStatus_eq, emit, a3]
  have p4 : (loopPre deadOracle s1).prog.systemStatus.reconnect_attempts =
      (s.prog.systemStatus.reconnect_attempts + 1) % U32_MOD := by
    rw [loopPre_attempts, a5]
  have hg : sampleGate deadOracle demoCfg (loopPre deadOracle s1) = true := by
    have := h.2
    simp only [sampleGate, sampleNow, p1, p2, decide_eq_true_eq, demoCfg]
    exact this
  obtain ⟨d1, d2⟩ := dead_samplingStep (loopPre deadOracle s1) hg
  refine ⟨delay 100 (samplingStep deadOracle demoCfg (loopPre deadOracle s1)), ?_, ?_, ?_⟩
  · exact (loop_cache deadOracle demoCfg 2 s s1 a1).1
  · have e1 := dead_usub s.world.nMillis 8 (by decide)
    have e2 := dead_usub (s.world.nMillis + 5) 8 (by decide)
    constructor
    · show usub (deadOracle.millis (samplingStep deadOracle demoCfg
          (loopPre deadOracle s1)).world.nMillis % ULONG_MOD)
        (samplingStep deadOracle demoCfg (loopPre deadOracle s1)).prog.lastWifiCheck > 30000
      rw [d1, d2, p1]
      simp only [p3]
      rw [show s.world.nMillis + 5 + 3 = s.world.nMillis + 8 from rfl, e1]
      decide
    · show usub (deadOracle.millis ((samplingStep deadOracle demoCfg
          (loopPre deadOracle s1)).world.nMillis + 5) % ULONG_MOD)
        (samplingStep deadOracle demoCfg (loopPre deadOracle s1)).prog.lastPublishTime ≥ 5000
      rw [d1, d2, p1]
      simp only [sampleNow, p1]
      rw [show s.world.nMillis + 5 + 3 + 5 = s.world.nMillis + 5 + 8 from rfl, e2]
      decide
  · show (samplingStep deadOracle demoCfg (loopPre deadOracle s1)).prog.systemStatus.reconnect_attempts = _
    rw [samplingStep_attempts, p4]

/-- The dead node after `setup`: one failed `connectWiFi` call. -/
theorem dead_setup :
    ∃ s0, setup deadOracle demoCfg 2 St.init = some s0 ∧ DeadInv s0 ∧
      s0.prog.systemStatus.reconnect_attempts = 1 := by
  refine ⟨(setup deadOracle demoCfg 2 St.init).get (by decide), by simp, ⟨?_, ?_⟩, ?_⟩
  · decide
  · decide
  · decide

/-- The dead node reaches every value of the 32-bit counter: after `setup`
and `n` iterations `reconnect_attempts` is `n + 1` modulo 2^32. -/
theorem dead_reaches (n : Nat) :
    ∃ s, Running deadOracle demoCfg s ∧ DeadInv s ∧
      s.prog.systemStatus.reconnect_attempts = (n + 1) % U32_MOD := by
  induction n with
  | zero =>
    obtain ⟨s0, h1, h2, h3⟩ := dead_setup
    exact ⟨s0, Running.setup 2 s0 h1, h2, h3⟩
  | succ n ih =>
    obtain ⟨s, hr, hi, ha⟩ := ih
    obtain ⟨sEnd, hl, hi2, ha2⟩ := dead_loop s hi
    refine ⟨sEnd, Running.loop 2 s sEnd hr hl, hi2, ?_⟩
    rw [ha2, ha]
    simp [U32_MOD]

/-! ## Main theorems -/

/-- C1: for every clock reading `ms` that fits an `unsigned long`,
`getISOTimestamp` returns `"{d}T{hh}:{mm}:{ss}Z"` with `s = ms/1000`,
`m = s/60`, `h = m/60`, `d = h/24`, the day count in plain decimal and the
hour, minute and second fields modulo 24, 60, 60 on two digits; at
`ms = 90061000` the result is `"1T01:01:01Z"`. -/
theorem getISOTimestamp_format (o : Oracle) (s : St) (ms : Nat) (hms : ms < ULONG_MOD) :
    (getISOTimestamp o s).1 = specTimestamp (o.millis s.world.nMillis % ULONG_MOD) ∧
    isoTimestampOf ms = specTimestamp ms ∧
    specTimestamp ms = String.mk ((Nat.repr (ms / 1000 / 60 / 60 / 24)).data ++ ['T'] ++
      twoDigits (ms / 1000 / 60 / 60 % 24) ++ [':'] ++ twoDigits (ms / 1000 / 60 % 60) ++ [':'] ++
      twoDigits (ms / 1000 % 60) ++ ['Z']) ∧
    isoTimestampOf 90061000 = "1T01:01:01Z" := by
  refine ⟨?_, isoTimestampOf_eq_spec ms hms, rfl, by decide⟩
  simp only [getISOTimestamp, millis]
  exact isoTimestampOf_eq_spec _ (Nat.mod_lt _ (by decide))

/-- C1, at the largest clock reading: 49 days, 17:02:47. -/
theorem getISOTimestamp_format_witness :
    4294967295 < ULONG_MOD ∧ isoTimestampOf 4294967295 = "49T17:02:47Z" :=
  ⟨by decide,
   ((getISOTimestamp_format demoOracle St.init 4294967295 (by decide)).2.1).trans (by decide)⟩

/-- C2: `readSensor` returns a valid reading exactly when one of the first
`SENSOR_RETRY_COUNT` attempts passes the validity filter (finite, strictly
between -100 and 200) on both values; the reading then carries the values
of the first such attempt and the current clock value, and no sensor read
follows it; when every attempt is rejected the result is the zero reading
with `is_valid = false`. -/
theorem readSensor_contract (o : Oracle) (cfg : Config) (s : St) :
    (∀ v, isValidValue v = true ↔ ∃ q : ℚ, v = .fin q ∧ -100 < q ∧ q < 200) ∧
    ((readSensor o cfg s).1.is_valid = true ↔
      ∃ i, i < cfg.SENSOR_RETRY_COUNT ∧ attemptOk o s i = true) ∧
    (∀ i, i < cfg.SENSOR_RETRY_COUNT → attemptOk o s i = true →
      (∀ j, j < i → attemptOk o s j = false) →
      readSensor o cfg s =
        ({ temperature := o.readTemperature (s.world.nTemperature + i)
           humidity := o.readHumidity (s.world.nHumidity + i)
           timestamp := o.millis s.world.nMillis % ULONG_MOD
           is_valid := true },
         { s with world := { s.world with
             nHumidity := s.world.nHumidity + (i + 1)
             nTemperature := s.world.nTemperature + (i + 1)
             nMillis := s.world.nMillis + 1
             trace := s.world.trace ++ (List.replicate i failedAttempt).flatten ++
               [.readHumidity, .readTemperature] } })) ∧
    ((∀ j, j < cfg.SENSOR_RETRY_COUNT → attemptOk o s j = false) →
      readSensor o cfg s = (SensorData.zero, failedState cfg.SENSOR_RETRY_COUNT s)) := by
  refine ⟨isValidValue_iff, ⟨?_, ?_⟩, ?_, readSensor_all_failed o cfg s⟩
  · intro hv
    by_contra hne
    have hall : ∀ j, j < cfg.SENSOR_RETRY_COUNT → attemptOk o s j = false := by
      intro j hj
      cases hj2 : attemptOk o s j with
      | false => rfl
      | true => exact absurd ⟨j, hj, hj2⟩ hne
    rw [readSensor_all_failed o cfg s hall] at hv
    simp [SensorData.zero] at hv
  · intro hex
    obtain ⟨i, hi, hok, hb⟩ := exists_first_ok o s _ hex
    rw [readSensor_first_ok o cfg s i hi hok hb]
  · intro i hi hok hb
    exact readSensor_first_ok o cfg s i hi hok hb

/-- C2, on a sensor whose first attempt returns NaN humidity: the second
attempt is the one returned, after exactly two reads of each value. -/
theorem readSensor_contract_witness :
    (readSensor demoOracle demoCfg St.init).1 =
      { temperature := .fin 36, humidity := .fin 45, timestamp := 60000, is_valid := true } ∧
    (readSensor demoOracle demoCfg St.init).2.world.nHumidity = 2 ∧
    ((readSensor nanOracle demoCfg St.init).1 = SensorData.zero) := by
  have h1 := (readSensor_contract demoOracle demoCfg St.init).2.2.1 1 (by decide) (by decide)
    (by decide)
  have h2 := (readSensor_contract nanOracle demoCfg St.init).2.2.2 (by decide)
  rw [h1, h2]
  exact ⟨by decide, by decide, rfl⟩

/-- C3: the data message built by `publishSensorData` for a valid reading
has at most one `alert` member: `"high_temperature"` when the temperature
exceeds `TEMP_ALERT_THRESHOLD` (whatever the humidity), otherwise
`"humidity_out_of_range"` when the humidity is below
`HUMIDITY_MIN_THRESHOLD` or above `HUMIDITY_MAX_THRESHOLD`, otherwise no
`alert` member at all. -/
theorem publishSensorData_alert (o : Oracle) (cfg : Config) (data : SensorData) (s : St)
    (hv : data.is_valid = true) :
    ∃ doc : JsonDoc,
      (publishSensorData o cfg data s).2.world.trace =
        s.world.trace ++ [.publish .PUB_TOPIC doc] ∧
      doc.countKey "alert" ≤ 1 ∧
      (data.temperature.gt cfg.TEMP_ALERT_THRESHOLD = true →
        doc.get "alert" = some (.str "high_temperature")) ∧
      (data.temperature.gt cfg.TEMP_ALERT_THRESHOLD = false →
        (data.humidity.lt cfg.HUMIDITY_MIN_THRESHOLD = true ∨
          data.humidity.gt cfg.HUMIDITY_MAX_THRESHOLD = true) →
        doc.get "alert" = some (.str "humidity_out_of_range")) ∧
      (data.temperature.gt cfg.TEMP_ALERT_THRESHOLD = false →
        data.humidity.lt cfg.HUMIDITY_MIN_THRESHOLD = false →
        data.humidity.gt cfg.HUMIDITY_MAX_THRESHOLD = false →
        doc.get "alert" = none ∧ doc.countKey "alert" = 0) ∧
      doc.get "temperature" = some (.num data.temperature.round2) ∧
      doc.get "humidity" = some (.num data.humidity.round2) := by
  refine ⟨dataDoc cfg data (isoTimestampOf (o.millis s.world.nMillis % ULONG_MOD))
    (o.millis (s.world.nMillis + 1) % ULONG_MOD), ?_, dataDoc_alert cfg data _ _⟩
  rw [publishSensorData_valid o cfg data s hv]

/-- C3, for 36.0 degrees and 45.0 % against a 35.0 threshold: the alert is
`"high_temperature"`. -/
theorem publishSensorData_alert_witness :
    ∃ doc : JsonDoc,
      (publishSensorData demoOracle demoCfg hotReading St.init).2.world.trace =
        [.publish .PUB_TOPIC doc] ∧
      doc.get "alert" = some (.str "high_temperature") ∧ doc.countKey "alert" ≤ 1 := by
  obtain ⟨doc, h1, h2, h3, _⟩ :=
    publishSensorData_alert demoOracle demoCfg hotReading St.init (by decide)
  exact ⟨doc, by simpa [St.init, World.init] using h1, h3 (by decide), h2⟩

/-- C5: for a reading with `is_valid = false`, `publishSensorData` returns
false and leaves the whole state as it was: no call is made, no global
changes. -/
theorem publishSensorData_invalid (o : Oracle) (cfg : Config) (data : SensorData) (s : St)
    (h : data.is_valid = false) :
    publishSensorData o cfg data s = (false, s) := by
  simp [publishSensorData, h]

/-- C5, for an invalid reading that still carries 36.0 degrees. -/
theorem publishSensorData_invalid_witness :
    publishSensorData demoOracle demoCfg { hotReading with is_valid := false } St.init =
      (false, St.init) :=
  publishSensorData_invalid demoOracle demoCfg { hotReading with is_valid := false } St.init rfl

/-- C4: in a loop iteration whose sampling gate has elapsed and whose
`SENSOR_RETRY_COUNT` sensor attempts are all rejected, the sampling step
makes the failed attempts and then exactly one publish call, on the status
topic, with status label `"sensor_error"`; it makes no publish call on the
data topic.  The iteration completes whenever its wireless polling ends. -/
theorem loop_sensor_error (o : Oracle) (cfg : Config) (fuel : Nat) (s s1 : St)
    (hm : maintainConnectivity o cfg fuel s = some s1)
    (hg : sampleGate o cfg (loopPre o s1) = true)
    (hfail : ∀ j, j < cfg.SENSOR_RETRY_COUNT → attemptOk o (loopPre o s1) j = false) :
    ∃ (sEnd : St) (doc : JsonDoc),
      loop o cfg fuel s = some sEnd ∧
      sEnd.world.trace =
        (loopPre o s1).world.trace ++
          (List.replicate cfg.SENSOR_RETRY_COUNT failedAttempt).flatten ++
          [.publish .STATUS_TOPIC doc, .delay 100] ∧
      doc.get "status" = some (.str "sensor_error") ∧
      sEnd.world.nPublish = (loopPre o s1).world.nPublish + 1 ∧
      (∀ d, Event.publish .PUB_TOPIC d ∉
        (List.replicate cfg.SENSOR_RETRY_COUNT failedAttempt).flatten ++
          [.publish .STATUS_TOPIC doc, .delay 100]) ∧
      (List.replicate cfg.SENSOR_RETRY_COUNT failedAttempt).flatten.count
        (.publish .STATUS_TOPIC doc) = 0 ∧
      (wifiGateOpen o s = false → ∀ f, (loop o cfg f s).isSome = true) ∧
      (∀ j f, wifiPollEnds o cfg s j = true → j < f → (loop o cfg f s).isSome = true) := by
  obtain ⟨h1, h2⟩ := samplingStep_sensor_error o cfg (loopPre o s1) hg hfail
  refine ⟨delay 100 (samplingStep o cfg (loopPre o s1)),
    statusDoc "sensor_error"
      (isoTimestampOf (o.millis ((loopPre o s1).world.nMillis + 1) % ULONG_MOD))
      (o.millis ((loopPre o s1).world.nMillis + 2) % ULONG_MOD)
      (o.rssi (loopPre o s1).world.nRssi) (o.freeHeap (loopPre o s1).world.nFreeHeap),
    ?_, ?_, ?_, ?_, ?_, ?_, (loop_returns o cfg s).1, (loop_returns o cfg s).2⟩
  · simp [loop, hm, loopRest, loopPre]
  · simp only [delay, emit, h1]
    simp
  · simp [statusDoc, JsonDoc.get]
  · simpa [delay, emit] using h2
  · intro d
    simp [failedAttempt, List.mem_flatten, List.mem_replicate]
  · rw [List.count_eq_zero]
    simp [failedAttempt, List.mem_flatten, List.mem_replicate]

/-- C4, on a node whose sensor only returns NaN: the iteration ends with
three failed attempts, one `sensor_error` status publish and the final
delay, and the publish counter advanced by one. -/
theorem loop_sensor_error_witness :
    ∃ (sEnd : St) (doc : JsonDoc),
      loop nanOracle demoCfg 0 St.init = some sEnd ∧
      sEnd.world.trace =
        [.mqttLoop] ++ (List.replicate 3 failedAttempt).flatten ++
          [.publish .STATUS_TOPIC doc, .delay 100] ∧
      doc.get "status" = some (.str "sensor_error") ∧
      sEnd.world.nPublish = 1 := by
  have hm : maintainConnectivity nanOracle demoCfg 0 St.init =
      some ((maintainConnectivity nanOracle demoCfg 0 St.init).get (by decide)) := by simp
  obtain ⟨sEnd, doc, h1, h2, h3, h4, _⟩ :=
    loop_sensor_error nanOracle demoCfg 0 St.init _ hm (by decide) (by decide)
  refine ⟨sEnd, doc, h1, ?_, h3, ?_⟩
  · rw [h2]; rfl
  · rw [h4]; rfl

/-- C6: when the wireless link is up, `connectWiFi` returns true and only
consumes the status query: no `WiFi.begin`, no delay, no global changes;
any number of successive calls in that situation all return true and leave
the globals as they were. -/
theorem connectWiFi_idempotent (o : Oracle) (cfg : Config) (fuel : Nat) (s : St) (n : Nat)
    (h : ∀ i, i ≤ n → o.wifiStatus (s.world.nWifiStatus + i) = true) :
    (∃ sf, connectWiFi o cfg fuel s = some (true, sf) ∧
      sf.prog = s.prog ∧
      sf.world = { s.world with
        nWifiStatus := s.world.nWifiStatus + 1
        trace := s.world.trace ++ [.enterConnectWiFi] } ∧
      sf.calls .wifiBegin = s.calls .wifiBegin ∧
      (∀ ms, sf.calls (.delay ms) = s.calls (.delay ms))) ∧
    (∃ sn, connectWiFiTimes o cfg fuel (n + 1) s = some (List.replicate (n + 1) true, sn) ∧
      sn.prog = s.prog ∧
      sn.world.trace = s.world.trace ++ List.replicate (n + 1) .enterConnectWiFi ∧
      sn.calls .wifiBegin = s.calls .wifiBegin ∧
      (∀ ms, sn.calls (.delay ms) = s.calls (.delay ms))) := by
  have h0 : o.wifiStatus s.world.nWifiStatus = true := by simpa using h 0 (Nat.zero_le n)
  constructor
  · refine ⟨_, connectWiFi_connected o cfg fuel s h0, rfl, rfl, ?_, ?_⟩
    · simp [St.calls]
    · intro ms; simp [St.calls]
  · refine ⟨_, connectWiFiTimes_connected o cfg fuel (n + 1) s (fun i hi => h i (by omega)),
      rfl, rfl, ?_, ?_⟩
    · simp [St.calls, List.count_replicate]
    · intro ms; simp [St.calls, List.count_replicate]

/-- C6, on a node whose link is up: three successive calls, each without
fuel for polling, all return true. -/
theorem connectWiFi_idempotent_witness :
    ∃ sn, connectWiFiTimes demoOracle demoCfg 0 3 St.init = some ([true, true, true], sn) ∧
      sn.prog = St.init.prog ∧ sn.calls .wifiBegin = 0 :=
  let ⟨sn, h1, h2, _, h4, _⟩ :=
    (connectWiFi_idempotent demoOracle demoCfg 0 St.init 2 (fun _ _ => rfl)).2
  ⟨sn, h1, h2, h4⟩

/-- C7 as stated fails at the top of the counter range: with
`reconnect_attempts = 4294967295` and the link down until the timeout, the
call returns false and leaves `reconnect_attempts = 0`, not the previous
value plus 1.  A node that never connects reaches that value (after `setup`
and 4294967294 iterations); the `connectWiFi` call of its next iteration,
made in state `sc`, takes the counter to 0. -/
theorem connectWiFi_attempts_wrap :
    (deadOracle.wifiStatus wrapState.world.nWifiStatus = false ∧
      ∃ sf, connectWiFi deadOracle demoCfg 2 wrapState = some (false, sf) ∧
        sf.prog.systemStatus.wifi_connected = false ∧
        sf.prog.systemStatus.reconnect_attempts = 0 ∧
        sf.prog.systemStatus.reconnect_attempts ≠
          wrapState.prog.systemStatus.reconnect_attempts + 1) ∧
    (∃ s sc sf sEnd, Reachable deadOracle demoCfg s ∧
      s.prog.systemStatus.reconnect_attempts = 4294967295 ∧
      sc = setStatus (fun st => { st with wifi_connected := false })
        { s with world := { s.world with
            nMillis := s.world.nMillis + 1
            nWifiStatus := s.world.nWifiStatus + 1 } } ∧
      deadOracle.wifiStatus sc.world.nWifiStatus = false ∧
      connectWiFi deadOracle demoCfg 2 sc = some (false, sf) ∧
      sf.prog.systemStatus.reconnect_attempts = 0 ∧
      sf.prog.systemStatus.reconnect_attempts ≠ sc.prog.systemStatus.reconnect_attempts + 1 ∧
      maintainConnectivity deadOracle demoCfg 2 s =
        some (maintainMQTT deadOracle (deadOracle.millis s.world.nMillis % ULONG_MOD)
          { sf with prog := { sf.prog with
              lastWifiCheck := deadOracle.millis s.world.nMillis % ULONG_MOD } }) ∧
      loop deadOracle demoCfg 2 s = some sEnd ∧
      sEnd.prog.systemStatus.reconnect_attempts = 0) := by
  constructor
  · refine ⟨rfl, ((connectWiFi deadOracle demoCfg 2 wrapState).get (by decide)).2, ?_, ?_, ?_, ?_⟩
    · decide
    · decide
    · decide
    · decide
  · obtain ⟨s, hr, hi, ha⟩ := dead_reaches 4294967294
    obtain ⟨sEnd, hl, _, ha2⟩ := dead_loop s hi
    have ha3 : s.prog.systemStatus.reconnect_attempts = 4294967295 := by
      rw [ha]; decide
    obtain ⟨sf, c1, _, c3⟩ := dead_connectWiFi
      (setStatus (fun st => { st with wifi_connected := false })
        { s with world := { s.world with
            nMillis := s.world.nMillis + 1
            nWifiStatus := s.world.nWifiStatus + 1 } })
    have hsf : sf.prog.systemStatus.reconnect_attempts = 0 := by
      rw [c3]
      simp only [setStatus, ha3]
      decide
    refine ⟨s, _, sf, sEnd, Or.inr hr, ha3, rfl, rfl, c1, hsf, ?_,
      maintainConnectivity_call deadOracle demoCfg 2 s sf false hi.1 (dead_wifi _) c1, hl, ?_⟩
    · rw [hsf]
      simp only [setStatus, ha3]
      decide
    · rw [ha2, ha3]; decide

/-- C7 (amended): a call of `connectWiFi` that starts with the link down
returns the link status it reads after the polling loop; when that status
is connected `reconnect_attempts` is 0 and the result true; when it is down
`wifi_connected` is false, the result false and `reconnect_attempts` is the
previous value plus 1 modulo 2^32, hence exactly plus 1 below 4294967295.
The call returns once the fuel exceeds a poll at which the loop condition
is false.  No other operation increases `reconnect_attempts`:
`maintainConnectivity` and `loop` change it only through that call. -/
theorem connectWiFi_reconnect_attempts (o : Oracle) (cfg : Config) :
    (∀ (fuel : Nat) (s sf : St) (r : Bool),
      o.wifiStatus s.world.nWifiStatus = false →
      connectWiFi o cfg fuel s = some (r, sf) →
      r = o.wifiStatus (sf.world.nWifiStatus - 1) ∧
      (r = true → sf.prog.systemStatus.reconnect_attempts = 0 ∧
        sf.prog.systemStatus.wifi_connected = true) ∧
      (r = false →
        sf.prog.systemStatus.reconnect_attempts =
          (s.prog.systemStatus.reconnect_attempts + 1) % U32_MOD ∧
        sf.prog.systemStatus.wifi_connected = false) ∧
      (r = false → s.prog.systemStatus.reconnect_attempts + 1 < U32_MOD →
        sf.prog.systemStatus.reconnect_attempts =
          s.prog.systemStatus.reconnect_attempts + 1)) ∧
    (∀ (s : St) (j fuel : Nat),
      (o.wifiStatus (s.world.nWifiStatus + 1 + j) ||
        !decide (usub (o.millis (s.world.nMillis + 1 + j) % ULONG_MOD)
          (o.millis s.world.nMillis % ULONG_MOD) < cfg.WIFI_TIMEOUT)) = true →
      j < fuel → (connectWiFi o cfg fuel s).isSome = true) ∧
    (∀ s : St, (connectMQTT o s).2.prog.systemStatus.reconnect_attempts ≤
      s.prog.systemStatus.reconnect_attempts) ∧
    (∀ s : St, (updateSystemStatus o s).prog.systemStatus.reconnect_attempts =
      s.prog.systemStatus.reconnect_attempts) ∧
    (∀ (label : String) (s : St),
      (publishStatus o label s).2.prog.systemStatus.reconnect_attempts =
        s.prog.systemStatus.reconnect_attempts) ∧
    (∀ (d : SensorData) (s : St),
      (publishSensorData o cfg d s).2.prog.systemStatus.reconnect_attempts =
        s.prog.systemStatus.reconnect_attempts) ∧
    (∀ s : St, (readSensor o cfg s).2.prog.systemStatus.reconnect_attempts =
      s.prog.systemStatus.reconnect_attempts) ∧
    (∀ (fuel : Nat) (s sf : St), maintainConnectivity o cfg fuel s = some sf →
      sf.prog.systemStatus.reconnect_attempts ≤ s.prog.systemStatus.reconnect_attempts ∨
      (wifiGateOpen o s = true ∧
        sf.prog.systemStatus.reconnect_attempts =
          (s.prog.systemStatus.reconnect_attempts + 1) % U32_MOD)) ∧
    (∀ (fuel : Nat) (s sf : St), loop o cfg fuel s = some sf →
      sf.prog.systemStatus.reconnect_attempts ≤ s.prog.systemStatus.reconnect_attempts ∨
      (wifiGateOpen o s = true ∧
        sf.prog.systemStatus.reconnect_attempts =
          (s.prog.systemStatus.reconnect_attempts + 1) % U32_MOD)) := by
  refine ⟨?_, ?_, ?_, ?_, ?_, ?_, ?_, ?_, ?_⟩
  · intro fuel s sf r hdown hr
    obtain ⟨h1, h2, _, _⟩ := connectWiFi_down o cfg fuel s sf r hdown hr
    refine ⟨h1, ?_, ?_, ?_⟩
    · intro hrt; simp [h2, hrt]
    · intro hrf; simp [h2, hrf]
    · intro hrf hlt
      simp [h2, hrf, Nat.mod_eq_of_lt hlt]
  · intro s j fuel h hf
    exact connectWiFi_returns o cfg s j h fuel hf
  · intro s
    rcases (connectMQTT_frame o s).2.2.2.2.2.2 with h | h
    · exact le_of_eq h
    · rw [h]; exact Nat.zero_le _
  · intro s; simp [updateSystemStatus_eq]
  · intro label s; simp [publishStatus_eq]
  · exact publishSensorData_attempts o cfg
  · intro s; rw [(readSensor_frame o cfg s).1]
  · intro fuel s sf h
    exact (maintainConnectivity_frame o cfg fuel s sf h).2.2.2.2.2
  · intro fuel s sf h
    obtain ⟨s1, hm, rfl⟩ := loop_eq_some o cfg fuel s sf h
    have h1 : (delay 100 (samplingStep o cfg (loopPre o s1))).prog.systemStatus.reconnect_attempts
        = s1.prog.systemStatus.reconnect_attempts := by
      rw [← loopPre_attempts o s1, ← samplingStep_attempts o cfg (loopPre o s1)]
      rfl
    rw [h1]
    exact (maintainConnectivity_frame o cfg fuel s s1 hm).2.2.2.2.2

/-- C7 (amended), on a node that stays offline: the first failed call from
power-on returns false and leaves `reconnect_attempts = 1`. -/
theorem connectWiFi_reconnect_attempts_witness :
    ∃ sf, connectWiFi offlineOracle demoCfg 2 St.init = some (false, sf) ∧
      sf.prog.systemStatus.reconnect_attempts = 1 ∧
      sf.prog.systemStatus.wifi_connected = false := by
  have hr : connectWiFi offlineOracle demoCfg 2 St.init =
      some (false, ((connectWiFi offlineOracle demoCfg 2 St.init).get (by decide)).2) := by
    decide
  obtain ⟨_, _, h3, h4⟩ :=
    (connectWiFi_reconnect_attempts offlineOracle demoCfg).1 2 St.init _ false rfl hr
  exact ⟨_, hr, (h4 rfl (by decide)), (h3 rfl).2⟩

/-- C8: a completed `maintainConnectivity` enters `connectWiFi` exactly
when the link is down and more than 30 000 units have passed since
`lastWifiCheck`, and enters `connectMQTT` (the only place a session connect
is attempted) exactly when the session is down and more than 10 000 units
have passed since `lastMqttCheck`; neither decision depends on the other
gate's timestamp.  Of two consecutive calls with the session connected,
neither attempts a connect, and a call within 10 000 units of a call that
passed the messaging gate attempts none either. -/
theorem maintainConnectivity_gates (o : Oracle) (cfg : Config) (fuel : Nat) (s sf : St)
    (h : maintainConnectivity o cfg fuel s = some sf) :
    (wifiGateOpen o s = true ↔
      (usub (o.millis s.world.nMillis % ULONG_MOD) s.prog.lastWifiCheck > 30000 ∧
        o.wifiStatus s.world.nWifiStatus = false)) ∧
    (mqttGateOpen o s = true ↔
      (usub (o.millis s.world.nMillis % ULONG_MOD) s.prog.lastMqttCheck > 10000 ∧
        o.mqttConnected s.world.nMqttConnected = false)) ∧
    sf.calls .enterConnectWiFi =
      s.calls .enterConnectWiFi + (if wifiGateOpen o s = true then 1 else 0) ∧
    sf.calls .enterConnectMQTT =
      s.calls .enterConnectMQTT + (if mqttGateOpen o s = true then 1 else 0) ∧
    s.calls .mqttConnect ≤ sf.calls .mqttConnect ∧
    sf.calls .mqttConnect ≤ s.calls .mqttConnect + (if mqttGateOpen o s = true then 1 else 0) ∧
    (∀ v, wifiGateOpen o { s with prog := { s.prog with lastMqttCheck := v } } =
      wifiGateOpen o s) ∧
    (∀ v, mqttGateOpen o { s with prog := { s.prog with lastWifiCheck := v } } =
      mqttGateOpen o s) ∧
    (∀ (fuel2 : Nat) (sf2 : St), maintainConnectivity o cfg fuel2 sf = some sf2 →
      o.mqttConnected s.world.nMqttConnected = true →
      o.mqttConnected sf.world.nMqttConnected = true →
      sf.calls .mqttConnect = s.calls .mqttConnect ∧
      sf2.calls .mqttConnect = s.calls .mqttConnect ∧
      sf2.calls .enterConnectMQTT = s.calls .enterConnectMQTT) ∧
    (∀ (fuel2 : Nat) (sf2 : St), maintainConnectivity o cfg fuel2 sf = some sf2 →
      usub (o.millis s.world.nMillis % ULONG_MOD) s.prog.lastMqttCheck > 10000 →
      usub (o.millis sf.world.nMillis % ULONG_MOD) (o.millis s.world.nMillis % ULONG_MOD)
        ≤ 10000 →
      sf2.calls .mqttConnect = sf.calls .mqttConnect ∧
      sf2.calls .enterConnectMQTT = sf.calls .enterConnectMQTT) := by
  obtain ⟨_, a2, a3, a4, a5, _⟩ := maintainConnectivity_frame o cfg fuel s sf h
  refine ⟨by simp [wifiGateOpen], by simp [mqttGateOpen], a2, a3, a5, a4,
    fun _ => rfl, fun _ => rfl, ?_, ?_⟩
  · intro fuel2 sf2 h2 hc1 hc2
    obtain ⟨_, _, b3, b4, b5, _⟩ := maintainConnectivity_frame o cfg fuel2 sf sf2 h2
    have g1 : mqttGateOpen o s = false := by simp [mqttGateOpen, hc1]
    have g2 : mqttGateOpen o sf = false := by simp [mqttGateOpen, hc2]
    simp only [g1, g2, Bool.false_eq_true, if_false, Nat.add_zero] at a3 a4 b3 b4
    refine ⟨by omega, by omega, by omega⟩
  · intro fuel2 sf2 h2 hpass hnear
    obtain ⟨_, _, b3, b4, b5, _⟩ := maintainConnectivity_frame o cfg fuel2 sf sf2 h2
    have hl := maintainConnectivity_lastMqttCheck o cfg fuel s sf h
    rw [if_pos hpass] at hl
    have g2 : mqttGateOpen o sf = false := by
      simp only [mqttGateOpen, hl, Bool.and_eq_false_imp, decide_eq_true_eq]
      intro hgt
      omega
    simp only [g2, Bool.false_eq_true, if_false, Nat.add_zero] at b3 b4
    exact ⟨by omega, b3⟩

/-- C8, on a node that is offline at power-on and 60 s into its uptime: both
gates have elapsed and both links are down, so each connection routine is
entered once. -/
theorem maintainConnectivity_gates_witness :
    ∃ sf, maintainConnectivity offlineOracle demoCfg 2 St.init = some sf ∧
      sf.calls .enterConnectWiFi = 1 ∧ sf.calls .enterConnectMQTT = 1 := by
  have hm : maintainConnectivity offlineOracle demoCfg 2 St.init =
      some ((maintainConnectivity offlineOracle demoCfg 2 St.init).get (by decide)) := by simp
  obtain ⟨_, _, h3, h4, _⟩ := maintainConnectivity_gates offlineOracle demoCfg 2 St.init _ hm
  exact ⟨_, hm, h3.trans (by decide), h4.trans (by decide)⟩

/-- C9: in a completed loop iteration whose unsigned elapsed time
`now - lastPublishTime` (with `now` read once before sampling) is at least
`SENSOR_READ_INTERVAL`, `lastPublishTime` equals that `now` at the end,
whatever the sample and the publish result (a successful
`publishSensorData` first stores a later clock reading, which is
overwritten); otherwise the iteration reads no sensor, publishes nothing in
its sampling step and keeps `lastPublishTime`.  The iteration completes
whenever its wireless polling ends. -/
theorem loop_lastPublishTime (o : Oracle) (cfg : Config) (fuel : Nat) (s s1 : St)
    (hm : maintainConnectivity o cfg fuel s = some s1) :
    ∃ sEnd, loop o cfg fuel s = some sEnd ∧
      (sampleGate o cfg (loopPre o s1) = true ↔
        usub (sampleNow o (loopPre o s1)) s.prog.lastPublishTime ≥
          cfg.SENSOR_READ_INTERVAL) ∧
      (sampleGate o cfg (loopPre o s1) = true →
        sEnd.prog.lastPublishTime = sampleNow o (loopPre o s1)) ∧
      (sampleGate o cfg (loopPre o s1) = false →
        sEnd.prog.lastPublishTime = s.prog.lastPublishTime ∧
        sEnd.world.trace = (loopPre o s1).world.trace ++ [.delay 100] ∧
        sEnd.world.nHumidity = (loopPre o s1).world.nHumidity ∧
        sEnd.world.nTemperature = (loopPre o s1).world.nTemperature ∧
        sEnd.world.nPublish = (loopPre o s1).world.nPublish) ∧
      (∀ (d : SensorData) (t : St), d.is_valid = true →
        o.mqttPublish t.world.nPublish = true →
        (publishSensorData o cfg d t).1 = true ∧
        (publishSensorData o cfg d t).2.prog.lastPublishTime =
          o.millis (t.world.nMillis + 2) % ULONG_MOD) ∧
      (wifiGateOpen o s = false → ∀ f, (loop o cfg f s).isSome = true) ∧
      (∀ j f, wifiPollEnds o cfg s j = true → j < f → (loop o cfg f s).isSome = true) := by
  obtain ⟨h1, h2, h3⟩ := loop_cache o cfg fuel s s1 hm
  simp only [St.cache, Prod.mk.injEq] at h2
  refine ⟨_, h1, ?_, ?_, ?_, ?_, (loop_returns o cfg s).1, (loop_returns o cfg s).2⟩
  · simp [sampleGate, h2.2.1]
  · intro hg
    rw [if_pos hg] at h3
    simp only [St.cache] at h3
    split at h3 <;> simp only [Prod.mk.injEq] at h3 <;> exact h3.2.1
  · intro hg
    have hg2 : ¬ sampleGate o cfg (loopPre o s1) = true := by simp [hg]
    rw [if_neg hg2] at h3
    simp only [St.cache, Prod.mk.injEq] at h3
    refine ⟨h3.2.1, ?_, ?_, ?_, ?_⟩ <;>
      simp [samplingStep_eq, hg, delay, emit, millis]
  · intro d t hv hp
    rw [publishSensorData_valid o cfg d t hv]
    simp [hp]

/-- C9, on a healthy node: the iteration samples at clock value 74000,
publishes successfully, and ends with `lastPublishTime = 74000`. -/
theorem loop_lastPublishTime_witness :
    ∃ sEnd, loop demoOracle demoCfg 0 St.init = some sEnd ∧
      sEnd.prog.lastPublishTime = 74000 := by
  have hm : maintainConnectivity demoOracle demoCfg 0 St.init =
      some ((maintainConnectivity demoOracle demoCfg 0 St.init).get (by decide)) := by simp
  obtain ⟨sEnd, h1, _, h3, _⟩ := loop_lastPublishTime demoOracle demoCfg 0 St.init _ hm
  exact ⟨sEnd, h1, (h3 (by decide)).trans (by decide)⟩

/-- C10: a completed loop iteration changes `lastSensorData` and
`systemStatus.last_sensor_read` only when the gate had elapsed, the sample
was valid and its data publish succeeded; they then equal the sampled
reading and the iteration's `now`; in every other case both keep their
values.  Hence in every reachable state `lastSensorData` is the initial
`{0, 0, 0, false}` or a valid reading whose temperature and humidity pass
the validity filter.  An iteration completes whenever its wireless polling
ends. -/
theorem loop_lastSensorData (o : Oracle) (cfg : Config) :
    (∀ (fuel : Nat) (s s1 : St), maintainConnectivity o cfg fuel s = some s1 →
      ∃ sEnd, loop o cfg fuel s = some sEnd ∧
        ((sampleGate o cfg (loopPre o s1) = true ∧
            (sampleReading o cfg (loopPre o s1)).is_valid = true ∧
            samplePublishOk o (loopPre o s1) = true) →
          sEnd.prog.lastSensorData = sampleReading o cfg (loopPre o s1) ∧
          sEnd.prog.systemStatus.last_sensor_read = sampleNow o (loopPre o s1)) ∧
        (¬ (sampleGate o cfg (loopPre o s1) = true ∧
            (sampleReading o cfg (loopPre o s1)).is_valid = true ∧
            samplePublishOk o (loopPre o s1) = true) →
          sEnd.prog.lastSensorData = s.prog.lastSensorData ∧
          sEnd.prog.systemStatus.last_sensor_read = s.prog.systemStatus.last_sensor_read) ∧
        ((publishSensorData o cfg (sampleReading o cfg (loopPre o s1))
            (readSensor o cfg (millis o (loopPre o s1)).2).2).1 =
          ((sampleReading o cfg (loopPre o s1)).is_valid &&
            samplePublishOk o (loopPre o s1)))) ∧
    (∀ s, Reachable o cfg s →
      s.prog.lastSensorData = SensorData.zero ∨
      (s.prog.lastSensorData.is_valid = true ∧
        isValidValue s.prog.lastSensorData.temperature = true ∧
        isValidValue s.prog.lastSensorData.humidity = true)) ∧
    (∀ (s : St) (j f : Nat), wifiPollEnds o cfg s j = true → j < f →
      (loop o cfg f s).isSome = true) := by
  refine ⟨?_, reachable_lastSensorData o cfg, fun s => (loop_returns o cfg s).2⟩
  intro fuel s s1 hm
  obtain ⟨h1, _, h3⟩ := loop_cache o cfg fuel s s1 hm
  refine ⟨_, h1, ?_, ?_, ?_⟩
  · rintro ⟨hg, hv, hp⟩
    rw [if_pos hg, if_pos (by simp [hv, hp])] at h3
    simp only [St.cache, Prod.mk.injEq] at h3
    exact ⟨h3.1, h3.2.2⟩
  · intro hn
    simp only [St.cache] at h3
    split at h3
    · rename_i hg
      split at h3
      · rename_i hvp
        simp only [Bool.and_eq_true] at hvp
        exact absurd ⟨hg, hvp.1, hvp.2⟩ hn
      · simp only [Prod.mk.injEq] at h3
        exact ⟨h3.1, h3.2.2⟩
    · simp only [Prod.mk.injEq] at h3
      exact ⟨h3.1, h3.2.2⟩
  · cases hv : (sampleReading o cfg (loopPre o s1)).is_valid with
    | false => simp [publishSensorData, hv]
    | true =>
      have hn := (readSensor_frame o cfg (millis o (loopPre o s1)).2).2.1
      rw [publishSensorData_valid o cfg _ _ hv]
      simp only [hn, samplePublishOk, Bool.true_and]
      rfl

/-- C10, on a healthy node: the first iteration caches the reading 36.0
degrees, 45.0 % taken at clock value 81000 and records the iteration's
`now = 74000`. -/
theorem loop_lastSensorData_witness :
    ∃ sEnd, loop demoOracle demoCfg 0 St.init = some sEnd ∧
      sEnd.prog.lastSensorData =
        { temperature := .fin 36, humidity := .fin 45, timestamp := 81000, is_valid := true } ∧
      sEnd.prog.systemStatus.last_sensor_read = 74000 := by
  have hm : maintainConnectivity demoOracle demoCfg 0 St.init =
      some ((maintainConnectivity demoOracle demoCfg 0 St.init).get (by decide)) := by simp
  obtain ⟨sEnd, h1, h2, _⟩ := (loop_lastSensorData demoOracle demoCfg).1 0 St.init _ hm
  obtain ⟨h3, h4⟩ := h2 ⟨by decide, by decide, by decide⟩
  exact ⟨sEnd, h1, h3.trans (by decide), h4.trans (by decide)⟩

end ClusterSensor
